import Mathlib

/-!
Verification development for the operation_goldenrod propagation core.

The definitions below are a shallow embedding of the C sources:
`src/rational.c`, `src/state.c`, `src/engine.c`, `src/psi.c`, `src/koppa.c`
and `src/simulate.c`.  GMP arbitrary-precision integers (`mpz_t`) are
modelled by `Int`; fallible operations return `Option`; the in-place
mutation of `TRTS_State` is modelled by explicit state passing.
`mpz_probab_prime_p(·, 25)` is modelled by exact primality of the
magnitude (the C call is a Miller–Rabin test that agrees with exact
primality on all inputs relevant here).
-/

/-- Exact rational from `rational.h`/`rational.c`: a raw
numerator/denominator pair of arbitrary-precision integers, never
reduced. -/
structure Rational where
  num : Int
  den : Int
deriving Repr, DecidableEq

/-- Helper from `rational.c` (`normalize_zero`; renamed here because Mathlib already has a lemma of that name): enforce the 0/0
invariant after any operation — a zero numerator forces the denominator
to zero. -/
def normalizeZero (q : Rational) : Rational :=
  if q.num = 0 then { q with den := 0 } else q

/-- `rational_init`: numerator 0, denominator 1 (the algebraic start
state; only results of arithmetic collapse to 0/0). -/
def rational_init : Rational := ⟨0, 1⟩

/-- `rational_set_si`: set from an integer pair, collapsing to 0/0 when
the numerator is 0. -/
def rational_set_si (n : Int) (d : Int) : Rational :=
  if n = 0 then ⟨0, 0⟩ else ⟨n, d⟩

/-- `rational_set_components`: set numerator and denominator, funnelled
through `normalizeZero`. -/
def rational_set_components (n : Int) (d : Int) : Rational :=
  normalizeZero ⟨n, d⟩

/-- `rational_add`: (a.num·b.den + b.num·a.den) / (a.den·b.den). -/
def rational_add (a b : Rational) : Rational :=
  rational_set_components (a.num * b.den + b.num * a.den) (a.den * b.den)

/-- `rational_sub`: (a.num·b.den − b.num·a.den) / (a.den·b.den). -/
def rational_sub (a b : Rational) : Rational :=
  rational_set_components (a.num * b.den - b.num * a.den) (a.den * b.den)

/-- `rational_mul`: (a.num·b.num) / (a.den·b.den). -/
def rational_mul (a b : Rational) : Rational :=
  rational_set_components (a.num * b.num) (a.den * b.den)

/-- Computation part of `rational_div` (the body after the zero check). -/
def rational_div_raw (a b : Rational) : Rational :=
  rational_set_components (a.num * b.den) (a.den * b.num)

/-- `rational_div`: fails (returns `none`, the C `false`) exactly when
the divisor's numerator is 0; the divisor's denominator is never
consulted. -/
def rational_div (a b : Rational) : Option Rational :=
  if b.num = 0 then none else some (rational_div_raw a b)

/-- `rational_is_zero`: tests the numerator only. -/
def rational_is_zero (q : Rational) : Bool :=
  q.num == 0

/-- `rational_denominator_zero`: tests the denominator only. -/
def rational_denominator_zero (q : Rational) : Bool :=
  q.den == 0

/-- `rational_negate` (in place in C): negate the numerator, then
re-apply `normalizeZero`. -/
def rational_negate (q : Rational) : Rational :=
  normalizeZero ⟨-q.num, q.den⟩

/-- `rational_floor`: identity on denominator-zero values, otherwise the
floor of num/den as an integer rational (C uses `mpz_fdiv_q`, floor
division; the `mpz_get_si` truncation of the C is modelled exactly). -/
def rational_floor (q : Rational) : Rational :=
  if rational_denominator_zero q then q
  else rational_set_si (Int.fdiv q.num q.den) 1

/-- `rational_mod`: `a mod b = a − b·⌊a/b⌋`, but if `b` is the
zero-rational the result is `a` unchanged (not an error). -/
def rational_mod (a b : Rational) : Rational :=
  if rational_is_zero b then a
  else
    let quotient := rational_div_raw a b
    let quotient := rational_floor quotient
    let product := rational_mul b quotient
    rational_sub a product

/-- `rational_delta`: alias for subtraction. -/
def rational_delta (a b : Rational) : Rational :=
  rational_sub a b

/-- `rational_cmp`: cross-multiplication comparison; the C returns the
sign of a.num·b.den − b.num·a.den, and every call site only tests the
sign, so the difference itself is an exact model. -/
def rational_cmp (a b : Rational) : Int :=
  a.num * b.den - b.num * a.den

/-- Zero rule (Invariant A): numerator is 0 iff denominator is 0. -/
def rational_zero_rule (q : Rational) : Prop :=
  q.num = 0 ↔ q.den = 0

instance (q : Rational) : Decidable (rational_zero_rule q) := by
  unfold rational_zero_rule; infer_instance

/-! Configuration (`config.h`, restricted to the fields the embedded code
reads; the enum variants are the ones the `.c` files actually use). -/

/-- Engine track mode (`config.h`). -/
inductive EngineTrackMode where
  | ADD
  | MULTI
  | SLIDE
deriving Repr, DecidableEq, BEq

/-- Engine mode (`config.h`). -/
inductive EngineMode where
  | ADD
  | MULTI
  | SLIDE
  | DELTA_ADD
deriving Repr, DecidableEq, BEq

/-- Psi firing mode (`config.h`). -/
inductive PsiMode where
  | MSTEP
  | RHO_ONLY
  | MSTEP_RHO
  | INHIBIT_RHO
deriving Repr, DecidableEq, BEq

/-- Koppa operation mode (`config.h`). -/
inductive KoppaMode where
  | DUMP
  | POP
  | ACCUMULATE
deriving Repr, DecidableEq, BEq

/-- Koppa trigger condition (`config.h`). -/
inductive KoppaTrigger where
  | ON_PSI
  | ON_MSTEP
  | ON_ALL_MU
  | ON_MU_AFTER_PSI
deriving Repr, DecidableEq, BEq

/-- Prime target (`simulate.c` handles `ON_NEW_UPSILON` and `ON_MEMORY`;
the remaining variants select no pattern check). -/
inductive PrimeTarget where
  | ON_NEW_UPSILON
  | ON_MEMORY
  | ON_DELTA
  | ON_CURRENT
  | ON_KOPPA
deriving Repr, DecidableEq, BEq

/-- Microtick-10 behavior (`config.h`). -/
inductive MT10Behavior where
  | NONE
  | FORCED_PSI
  | BLOCK_PSI
deriving Repr, DecidableEq, BEq

/-- Sign flip mode (the variants `engine.c` dispatches on). -/
inductive SignFlipMode where
  | NONE
  | ALWAYS
  | ALTERNATE
deriving Repr, DecidableEq, BEq

/-- Ratio trigger mode (the variants `simulate.c` dispatches on). -/
inductive RatioTriggerMode where
  | NONE
  | GOLDEN
  | SQRT2
  | PLASTIC
  | CUSTOM
deriving Repr, DecidableEq, BEq

/-- Master configuration (`config.h`), restricted to the fields read by
the embedded core.  `mpz_t modulus_bound` and the unsigned
`koppa_wrap_threshold` are modelled as `Nat`. -/
structure Config where
  engine_mode : EngineMode
  engine_upsilon : EngineTrackMode
  engine_beta : EngineTrackMode
  psi_mode : PsiMode
  koppa_mode : KoppaMode
  koppa_trigger : KoppaTrigger
  prime_target : PrimeTarget
  mt10_behavior : MT10Behavior
  sign_flip_mode : SignFlipMode
  ratio_trigger_mode : RatioTriggerMode
  dual_track_mode : Bool
  triple_psi_mode : Bool
  multi_level_koppa : Bool
  enable_asymmetric_cascade : Bool
  enable_conditional_triple_psi : Bool
  enable_koppa_gated_engine : Bool
  enable_delta_cross_propagation : Bool
  enable_delta_koppa_offset : Bool
  enable_ratio_threshold_psi : Bool
  enable_stack_depth_modes : Bool
  enable_sign_flip : Bool
  enable_epsilon_phi_triangle : Bool
  enable_modular_wrap : Bool
  enable_psi_strength_parameter : Bool
  enable_ratio_custom_range : Bool
  enable_twin_prime_trigger : Bool
  enable_fibonacci_trigger : Bool
  enable_perfect_power_trigger : Bool
  ticks : Nat
  initial_upsilon : Rational
  initial_beta : Rational
  initial_koppa : Rational
  ratio_custom_lower : Rational
  ratio_custom_upper : Rational
  koppa_wrap_threshold : Nat
  modulus_bound : Nat
deriving Repr, DecidableEq

/-- Runtime state (`state.h`).  The fixed 4-entry koppa stack plus its
size counter is modelled as a list of length at most 4 (front = index
0). -/
structure TRTS_State where
  upsilon : Rational
  beta : Rational
  koppa : Rational
  epsilon : Rational
  phi : Rational
  previous_upsilon : Rational
  previous_beta : Rational
  delta_upsilon : Rational
  delta_beta : Rational
  triangle_phi_over_epsilon : Rational
  triangle_prev_over_phi : Rational
  triangle_epsilon_over_prev : Rational
  koppa_stack : List Rational
  koppa_sample : Rational
  koppa_sample_index : Int
  rho_pending : Bool
  rho_latched : Bool
  psi_recent : Bool
  psi_triple_recent : Bool
  psi_strength_applied : Bool
  ratio_triggered_recent : Bool
  ratio_threshold_recent : Bool
  dual_engine_last_step : Bool
  sign_flip_polarity : Bool
  tick : Nat
deriving Repr, DecidableEq

/-- `state_reset` (`state.c`): load the configured seeds, clear all
supplementary registers, the stack, flags and the tick counter.  Every
field of the state is written, so `state_init` needs no separate
model. -/
def state_reset (cfg : Config) : TRTS_State where
  upsilon := cfg.initial_upsilon
  beta := cfg.initial_beta
  koppa := cfg.initial_koppa
  epsilon := rational_set_si 0 1
  phi := rational_set_si 0 1
  previous_upsilon := cfg.initial_upsilon
  previous_beta := cfg.initial_beta
  delta_upsilon := rational_set_si 0 1
  delta_beta := rational_set_si 0 1
  triangle_phi_over_epsilon := rational_set_si 0 1
  triangle_prev_over_phi := rational_set_si 0 1
  triangle_epsilon_over_prev := rational_set_si 0 1
  koppa_stack := []
  koppa_sample := rational_set_si 0 1
  koppa_sample_index := -1
  rho_pending := false
  rho_latched := false
  psi_recent := false
  psi_triple_recent := false
  psi_strength_applied := false
  ratio_triggered_recent := false
  ratio_threshold_recent := false
  dual_engine_last_step := false
  sign_flip_polarity := false
  tick := 0

/-- Exact primality of a natural number, executable through `minFac`.
This models GMP `mpz_probab_prime_p(·, 25) > 0`. -/
def probab_prime (n : Nat) : Bool :=
  2 ≤ n && n.minFac == n

/-! Engine step (`engine.c`). -/

/-- `convert_engine_mode`: default/DELTA_ADD map to ADD. -/
def convert_engine_mode : EngineMode → EngineTrackMode
  | EngineMode.ADD => EngineTrackMode.ADD
  | EngineMode.MULTI => EngineTrackMode.MULTI
  | EngineMode.SLIDE => EngineTrackMode.SLIDE
  | EngineMode.DELTA_ADD => EngineTrackMode.ADD

/-- `apply_asymmetric_modes`: hardwired per-microtick overrides for the
E-phase microticks 1, 4, 7, 10. -/
def apply_asymmetric_modes (cfg : Config) (microtick : Nat)
    (ups_mode beta_mode : EngineTrackMode) : EngineTrackMode × EngineTrackMode :=
  if !cfg.enable_asymmetric_cascade then (ups_mode, beta_mode)
  else
    match microtick with
    | 1 => (EngineTrackMode.MULTI, EngineTrackMode.ADD)
    | 4 => (EngineTrackMode.ADD, EngineTrackMode.SLIDE)
    | 7 => (EngineTrackMode.SLIDE, EngineTrackMode.MULTI)
    | 10 => (EngineTrackMode.ADD, EngineTrackMode.ADD)
    | _ => (ups_mode, beta_mode)

/-- `apply_stack_depth_mode`: override keyed by the koppa-stack depth. -/
def apply_stack_depth_mode (cfg : Config) (st : TRTS_State)
    (base_mode : EngineTrackMode) : EngineTrackMode :=
  if !cfg.enable_stack_depth_modes then base_mode
  else
    let depth := st.koppa_stack.length
    if depth ≤ 1 then EngineTrackMode.ADD
    else if depth ≤ 3 then EngineTrackMode.MULTI
    else if depth = 4 then EngineTrackMode.SLIDE
    else EngineTrackMode.ADD

/-- `apply_koppa_gate`: override keyed by |κ numerator|. -/
def apply_koppa_gate (cfg : Config) (st : TRTS_State)
    (base_mode : EngineTrackMode) : EngineTrackMode :=
  if !cfg.enable_koppa_gated_engine then base_mode
  else
    let magnitude := st.koppa.num.natAbs
    if magnitude < 10 then EngineTrackMode.SLIDE
    else if magnitude < 100 then EngineTrackMode.MULTI
    else EngineTrackMode.ADD

/-- `apply_track_mode`: the per-register update formula; `none` models
the C `false` return (SLIDE with an ill-defined divide). -/
def apply_track_mode (mode : EngineTrackMode)
    (current counterpart koppa : Rational) : Option Rational :=
  match mode with
  | EngineTrackMode.ADD =>
      some (rational_add (rational_add current counterpart) koppa)
  | EngineTrackMode.MULTI =>
      some (rational_mul current (rational_add counterpart koppa))
  | EngineTrackMode.SLIDE =>
      if rational_is_zero koppa || rational_denominator_zero koppa then none
      else
        let workspace := rational_add current counterpart
        if rational_denominator_zero workspace then none
        else rational_div workspace koppa

/-- `apply_sign_flip`, split into its value/polarity computation: returns
the new polarity flag together with the possibly negated values.  The C
mutates `state->sign_flip_polarity` in place; `engine_step` below stores
the returned polarity into the state at the same point. -/
def apply_sign_flip (cfg : Config) (polarity : Bool) (u b : Rational) :
    Bool × Rational × Rational :=
  if !cfg.enable_sign_flip || cfg.sign_flip_mode == SignFlipMode.NONE then
    (false, u, b)
  else
    let flip_now :=
      match cfg.sign_flip_mode with
      | SignFlipMode.ALWAYS => true
      | SignFlipMode.ALTERNATE => !polarity
      | SignFlipMode.NONE => false
    let u := if flip_now then rational_negate u else u
    let b := if flip_now then rational_negate b else b
    let polarity :=
      if cfg.sign_flip_mode == SignFlipMode.ALWAYS then true
      else if cfg.sign_flip_mode == SignFlipMode.ALTERNATE then flip_now
      else polarity
    (polarity, u, b)

/-- `update_triangle`: recompute the three triangle ratios, substituting
0/1 (which the zero rule collapses to 0/0) when the divisor is the
zero-rational.  On a successful division the C overwrites the target; a
guarded division never fails, and `getD` keeps the old value exactly as
the C would on the (unreachable) failure path. -/
def update_triangle (cfg : Config) (st : TRTS_State) : TRTS_State :=
  if !cfg.enable_epsilon_phi_triangle then st
  else
    { st with
      triangle_phi_over_epsilon :=
        if !rational_is_zero st.epsilon then
          (rational_div st.phi st.epsilon).getD st.triangle_phi_over_epsilon
        else rational_set_si 0 1
      triangle_prev_over_phi :=
        if !rational_is_zero st.phi then
          (rational_div st.previous_upsilon st.phi).getD st.triangle_prev_over_phi
        else rational_set_si 0 1
      triangle_epsilon_over_prev :=
        if !rational_is_zero st.previous_upsilon then
          (rational_div st.epsilon st.previous_upsilon).getD st.triangle_epsilon_over_prev
        else rational_set_si 0 1 }

/-- `apply_delta_cross`: add Δβ to the new υ and Δυ to the new β, with an
optional κ offset on both. -/
def apply_delta_cross (cfg : Config) (st : TRTS_State) (new_upsilon new_beta : Rational) :
    Rational × Rational :=
  if !cfg.enable_delta_cross_propagation then (new_upsilon, new_beta)
  else
    let new_upsilon := rational_add new_upsilon st.delta_beta
    let new_beta := rational_add new_beta st.delta_upsilon
    if cfg.enable_delta_koppa_offset then
      (rational_add new_upsilon st.koppa, rational_add new_beta st.koppa)
    else (new_upsilon, new_beta)

/-- `rational_mod_bound`: reduce the absolute numerator modulo `bound`,
restore the sign, and leave the denominator untouched.  Note that this
does NOT re-apply the zero rule. -/
def rational_mod_bound (value : Rational) (bound : Nat) : Rational :=
  if bound = 0 then value
  else
    let rem : Nat := value.num.natAbs % bound
    let rem : Int := if value.num < 0 then -(rem : Int) else (rem : Int)
    { value with num := rem }

/-- `apply_modular_wrap`: post-commit κ wrap modulo β past the threshold,
then numerator reduction of υ, β, κ modulo the modulus bound. -/
def apply_modular_wrap (cfg : Config) (st : TRTS_State) : TRTS_State :=
  if !cfg.enable_modular_wrap then st
  else
    let st :=
      if cfg.koppa_wrap_threshold > 0 &&
          st.koppa.num.natAbs > cfg.koppa_wrap_threshold then
        { st with koppa := rational_mod st.koppa st.beta }
      else st
    if cfg.modulus_bound > 0 then
      { st with
        upsilon := rational_mod_bound st.upsilon cfg.modulus_bound
        beta := rational_mod_bound st.beta cfg.modulus_bound
        koppa := rational_mod_bound st.koppa cfg.modulus_bound }
    else st

/-- Track-mode selection part of `engine_step` (lines 284–299). -/
def engine_track_modes (cfg : Config) (st : TRTS_State) (microtick : Nat) :
    EngineTrackMode × EngineTrackMode :=
  let p :=
    if cfg.dual_track_mode then (cfg.engine_upsilon, cfg.engine_beta)
    else
      let m := convert_engine_mode cfg.engine_mode
      (m, m)
  let p := apply_asymmetric_modes cfg microtick p.1 p.2
  let ups_mode := apply_koppa_gate cfg st (apply_stack_depth_mode cfg st p.1)
  let beta_mode := apply_koppa_gate cfg st (apply_stack_depth_mode cfg st p.2)
  (ups_mode, beta_mode)

/-- Pre-update delta recomputation of `engine_step` (lines 308–310): the
delta registers are overwritten in the state BEFORE the success of the
step is known. -/
def engine_predeltas (st : TRTS_State) : TRTS_State :=
  { st with
    delta_upsilon := rational_delta st.upsilon st.previous_upsilon
    delta_beta := rational_delta st.beta st.previous_beta }

/-- Commit part of `engine_step` (lines 335–349, before the wrap). -/
def engine_commit (cfg : Config) (st : TRTS_State)
    (new_upsilon new_beta ups_before beta_before : Rational) : TRTS_State :=
  { st with
    upsilon := new_upsilon
    beta := new_beta
    dual_engine_last_step := cfg.dual_track_mode
    delta_upsilon := rational_delta new_upsilon ups_before
    delta_beta := rational_delta new_beta beta_before
    previous_upsilon := ups_before
    previous_beta := beta_before }

/-- Value-computation part of `engine_step` (lines 312–327): the
delta-add bypass or the two per-register track formulas; the `Bool` is
the C `success`, and failed registers keep their current values exactly
as the C leaves its initialized `new_upsilon`/`new_beta` buffers. -/
def engine_attempt (cfg : Config) (st1 : TRTS_State)
    (modes : EngineTrackMode × EngineTrackMode) : Bool × Rational × Rational :=
  if !cfg.dual_track_mode && cfg.engine_mode == EngineMode.DELTA_ADD then
    (true, rational_add st1.upsilon st1.delta_upsilon,
      rational_add st1.beta st1.delta_beta)
  else
    let ups_result := apply_track_mode modes.1 st1.upsilon st1.beta st1.koppa
    let beta_result := apply_track_mode modes.2 st1.beta st1.upsilon st1.koppa
    (ups_result.isSome && beta_result.isSome,
      ups_result.getD st1.upsilon, beta_result.getD st1.beta)

/-- Cross-propagation and sign-flip applied to the attempted values
(engine.c lines 330–331). -/
def engine_flipped (cfg : Config) (st : TRTS_State) (microtick : Nat) :
    Bool × Rational × Rational :=
  apply_sign_flip cfg (engine_predeltas st).sign_flip_polarity
    (apply_delta_cross cfg (engine_predeltas st)
      (engine_attempt cfg (engine_predeltas st)
        (engine_track_modes cfg st microtick)).2.1
      (engine_attempt cfg (engine_predeltas st)
        (engine_track_modes cfg st microtick)).2.2).1
    (apply_delta_cross cfg (engine_predeltas st)
      (engine_attempt cfg (engine_predeltas st)
        (engine_track_modes cfg st microtick)).2.1
      (engine_attempt cfg (engine_predeltas st)
        (engine_track_modes cfg st microtick)).2.2).2

/-- The state after the unconditional parts of `engine_step` (pre-update
deltas, sign-flip polarity, triangle recomputation) but before the
success check. -/
def engine_poststate (cfg : Config) (st : TRTS_State) (microtick : Nat) :
    TRTS_State :=
  update_triangle cfg
    { engine_predeltas st with
      sign_flip_polarity := (engine_flipped cfg st microtick).1 }

/-- `engine_step` (`engine.c`): returns the C `bool` result paired with
the state after the call. -/
def engine_step (cfg : Config) (st : TRTS_State) (microtick : Nat) :
    Bool × TRTS_State :=
  if (engine_attempt cfg (engine_predeltas st)
      (engine_track_modes cfg st microtick)).1 then
    (true, apply_modular_wrap cfg
      (engine_commit cfg (engine_poststate cfg st microtick)
        (engine_flipped cfg st microtick).2.1
        (engine_flipped cfg st microtick).2.2
        st.upsilon st.beta))
  else
    (false, { engine_poststate cfg st microtick with
      dual_engine_last_step := false })

/-! Psi transform (`psi.c`). -/

/-- Hardcoded Fibonacci tick table (`FIB_TICKS`, psi.c lines 17–21). -/
def FIB_TICKS : List Nat :=
  [5, 13, 89, 233, 1597, 4181, 10946, 28657, 75025, 196418,
   514229, 1346269, 3524578, 9227465]

/-- `is_fibonacci_tick`: membership in the hardcoded table. -/
def is_fibonacci_tick (tick : Nat) : Bool :=
  FIB_TICKS.contains tick

/-- `numerator_is_prime`: probabilistic primality of the absolute
numerator, for magnitudes at least 2 (modelled as exact primality). -/
def numerator_is_prime (q : Rational) : Bool :=
  probab_prime q.num.natAbs

/-- `standard_psi`: (υ, β) → (β/υ, υ/β); `none` models the C `false`
(no mutation).  Fails when υ or β is the zero-rational or when either new
denominator would be zero. -/
def standard_psi (st : TRTS_State) : Option TRTS_State :=
  if rational_is_zero st.upsilon || rational_is_zero st.beta then none
  else if st.beta.den * st.upsilon.num = 0 ∨ st.upsilon.den * st.beta.num = 0 then
    none
  else
    some { st with
      upsilon := rational_set_components (st.beta.num * st.upsilon.den)
        (st.beta.den * st.upsilon.num)
      beta := rational_set_components (st.upsilon.num * st.beta.den)
        (st.upsilon.den * st.beta.num) }

/-- `triple_psi`: (υ, β, κ) → (β/κ, κ/υ, κ/β); same failure conditions
extended to κ. -/
def triple_psi (st : TRTS_State) : Option TRTS_State :=
  if rational_is_zero st.koppa || rational_is_zero st.upsilon ||
      rational_is_zero st.beta then none
  else if st.beta.den * st.koppa.num = 0 ∨ st.koppa.den * st.upsilon.num = 0 ∨
      st.koppa.den * st.beta.num = 0 then
    none
  else
    some { st with
      upsilon := rational_set_components (st.beta.num * st.koppa.den)
        (st.beta.den * st.koppa.num)
      beta := rational_set_components (st.koppa.num * st.upsilon.den)
        (st.koppa.den * st.upsilon.num)
      koppa := rational_set_components (st.koppa.num * st.beta.den)
        (st.koppa.den * st.beta.num) }

/-- `psi_strength`: number of transform-loop iterations; the count of
prime numerators among υ, β, κ (minimum 1) when the strength feature is
enabled and the ρ latch is set, otherwise 1. -/
def psi_strength (cfg : Config) (st : TRTS_State) : Nat :=
  if !cfg.enable_psi_strength_parameter || !st.rho_pending then 1
  else
    let prime_count :=
      (if numerator_is_prime st.upsilon then 1 else 0) +
      (if numerator_is_prime st.beta then 1 else 0) +
      (if numerator_is_prime st.koppa then 1 else 0)
    if prime_count ≤ 0 then 1 else prime_count

/-- Per-iteration triple decision of `psi_transform` (psi.c lines
200–214): global triple mode, or conditional triple with all three
numerators prime, or exactly the third-to-last iteration of a burst of
length at least 3. -/
def psi_request_triple (cfg : Config) (st : TRTS_State) (strength i : Nat) : Bool :=
  let request_triple := cfg.triple_psi_mode
  let request_triple :=
    if cfg.enable_conditional_triple_psi &&
        (numerator_is_prime st.upsilon && numerator_is_prime st.beta &&
          numerator_is_prime st.koppa) then
      true
    else request_triple
  if strength ≥ 3 && i == strength - 3 then true else request_triple

/-- Transform loop of `psi_transform` (psi.c lines 199–236), recursing on
the number of remaining iterations; `fired` carries the result of the
most recent attempt, and a failed iteration stops the loop keeping the
already committed effects. -/
def psi_loop (cfg : Config) (strength : Nat) :
    Nat → TRTS_State → Bool → Bool × TRTS_State
  | 0, st, fired => (fired, st)
  | remaining + 1, st, _ =>
      let i := strength - (remaining + 1)
      let request_triple := psi_request_triple cfg st strength i
      let attempt :=
        if request_triple then
          (triple_psi st).map (fun s => { s with psi_triple_recent := true })
        else standard_psi st
      match attempt with
      | none => (false, st)
      | some st2 =>
          let st3 :=
            { st2 with
              psi_recent := true
              rho_pending := if i == 0 then false else st2.rho_pending }
          psi_loop cfg strength remaining st3 true

/-- `psi_transform` (`psi.c`): clears the per-call flags, applies the
ρ/Fibonacci gates for the RHO-gated modes and the `can_fire` gate, then
runs the transform loop `strength` times. -/
def psi_clear_flags (st : TRTS_State) : TRTS_State :=
  { st with
    psi_triple_recent := false
    psi_recent := false
    psi_strength_applied := false }

def psi_transform (cfg : Config) (st : TRTS_State) : Bool × TRTS_State :=
  let st := psi_clear_flags st
  if (cfg.psi_mode == PsiMode.RHO_ONLY || cfg.psi_mode == PsiMode.MSTEP_RHO) &&
      (!st.rho_pending || !is_fibonacci_tick st.tick) then
    (false, st)
  else if !(st.rho_pending || cfg.psi_mode == PsiMode.MSTEP) then
    (false, st)
  else
    let strength := psi_strength cfg st
    let st := if strength > 1 then { st with psi_strength_applied := true } else st
    psi_loop cfg strength strength st false

/-! Koppa accrual (`koppa.c`). -/

/-- `koppa_dump`: κ ← 0 via `rational_set_si(κ, 0, 1)`, which the zero
rule collapses to 0/0. -/
def koppa_dump (st : TRTS_State) : TRTS_State :=
  { st with koppa := rational_set_si 0 1 }

/-- `koppa_pop`: κ ← ε. -/
def koppa_pop (st : TRTS_State) : TRTS_State :=
  { st with koppa := st.epsilon }

/-- `koppa_accumulate`: κ ← κ + ε. -/
def koppa_accumulate (st : TRTS_State) : TRTS_State :=
  { st with koppa := rational_add st.koppa st.epsilon }

/-- `koppa_stack_push`: 4-entry FIFO; when full, shift left (dropping the
oldest, slot 0) and write the new value into slot 3. -/
def koppa_stack_push (st : TRTS_State) (val : Rational) : TRTS_State :=
  if st.koppa_stack.length == 4 then
    { st with koppa_stack := st.koppa_stack.tail ++ [val] }
  else
    { st with koppa_stack := st.koppa_stack ++ [val] }

/-- Index selection of `koppa_update_sample` (koppa.c lines 53–59):
microtick 5 selects slot 0, microtick 11 selects slot 2 when at least 3
entries are present, anything else selects −1. -/
def koppa_sample_choice (microtick : Nat) (len : Nat) : Int :=
  if microtick == 5 && len ≥ 1 then 0
  else if microtick == 11 && len ≥ 3 then 2
  else -1

/-- `koppa_update_sample` (koppa.c lines 46–69): with multi-level history
off or an empty stack the sample is the current κ and the sample index is
left untouched; otherwise the selected slot (microtick 5 → slot 0,
microtick 11 → slot 2 when present) is sampled with its index, and every
other case falls back to the current κ with index −1. -/
def koppa_update_sample (st : TRTS_State) (microtick : Nat) (multi_level : Bool) :
    TRTS_State :=
  if !multi_level || st.koppa_stack.length == 0 then
    { st with koppa_sample := st.koppa }
  else if koppa_sample_choice microtick st.koppa_stack.length ≠ -1 then
    { st with
      koppa_sample :=
        st.koppa_stack.getD (koppa_sample_choice microtick st.koppa_stack.length).toNat ⟨0, 0⟩
      koppa_sample_index := koppa_sample_choice microtick st.koppa_stack.length }
  else
    { st with koppa_sample := st.koppa, koppa_sample_index := -1 }

/-- Trigger evaluation of `koppa_accrue` (koppa.c lines 76–90). -/
def koppa_trigger_eval (cfg : Config) (st : TRTS_State)
    (psi_fired is_memory_step : Bool) : Bool :=
  match cfg.koppa_trigger with
  | KoppaTrigger.ON_PSI => psi_fired
  | KoppaTrigger.ON_MSTEP => is_memory_step
  | KoppaTrigger.ON_ALL_MU => true
  | KoppaTrigger.ON_MU_AFTER_PSI => st.psi_recent

/-- Maintenance of the `psi_recent` flag (koppa.c lines 92–99), which
runs on every accrual call after the trigger was evaluated. -/
def koppa_psi_recent_update (cfg : Config) (st : TRTS_State)
    (psi_fired is_memory_step : Bool) : TRTS_State :=
  { st with
    psi_recent :=
      if psi_fired then true
      else if cfg.koppa_trigger == KoppaTrigger.ON_MU_AFTER_PSI &&
          !is_memory_step then true
      else false }

/-- Stack push of the pre-operation κ (koppa.c lines 110–112). -/
def koppa_premix (cfg : Config) (st : TRTS_State) : TRTS_State :=
  if cfg.multi_level_koppa then koppa_stack_push st st.koppa else st

/-- Dispatch on the configured koppa operation (koppa.c lines 114–124). -/
def koppa_apply_mode (cfg : Config) (st : TRTS_State) : TRTS_State :=
  match cfg.koppa_mode with
  | KoppaMode.DUMP => koppa_dump st
  | KoppaMode.POP => koppa_pop st
  | KoppaMode.ACCUMULATE => koppa_accumulate st

/-- Unconditional addition of (υ + β) to κ (koppa.c lines 126–133). -/
def koppa_add_upsilon_beta (st : TRTS_State) : TRTS_State :=
  { st with koppa := rational_add st.koppa (rational_add st.upsilon st.beta) }

/-- Triggered part of `koppa_accrue` (koppa.c lines 107–133): push the
pre-operation κ when multi-level history is enabled, apply the configured
operation, then add (υ + β) to κ unconditionally. -/
def koppa_operate (cfg : Config) (st : TRTS_State) : TRTS_State :=
  koppa_add_upsilon_beta (koppa_apply_mode cfg (koppa_premix cfg st))

/-- `koppa_accrue` (`koppa.c`): trigger evaluation, `psi_recent`
maintenance, the triggered operation when the trigger fired, and sampling
on every call. -/
def koppa_accrue (cfg : Config) (st : TRTS_State)
    (psi_fired is_memory_step : Bool) (microtick : Nat) : TRTS_State :=
  if !(koppa_trigger_eval cfg st psi_fired is_memory_step) then
    koppa_update_sample (koppa_psi_recent_update cfg st psi_fired is_memory_step)
      microtick cfg.multi_level_koppa
  else
    koppa_update_sample
      (koppa_operate cfg (koppa_psi_recent_update cfg st psi_fired is_memory_step))
      microtick cfg.multi_level_koppa

/-! Simulation scheduler (`simulate.c`). -/

/-- `mpz_is_prime_signed`: primality of the absolute value (magnitude at
least 2). -/
def mpz_is_prime_signed (value : Int) : Bool :=
  probab_prime value.natAbs

/-- `mpz_is_square`: negative values are not squares; otherwise an exact
integer square-root check. -/
def mpz_is_square (value : Int) : Bool :=
  if value < 0 then false
  else
    let n := value.toNat
    Nat.sqrt n * Nat.sqrt n == n

/-- `mpz_is_fibonacci`: negative is not Fibonacci, 0 and 1 are, otherwise
one of 5n²±4 must be a perfect square. -/
def mpz_is_fibonacci (value : Int) : Bool :=
  if value < 0 then false
  else if value ≤ 1 then true
  else
    let temp := 5 * value * value
    mpz_is_square (temp + 4) || mpz_is_square (temp - 4)

/-- `mpz_is_perfect_power`: values at most 1 are not perfect powers;
otherwise GMP's `mpz_perfect_power_p`, i.e. n = a^b for some b > 1. -/
def mpz_is_perfect_power (value : Int) : Bool :=
  if value ≤ 1 then false
  else
    let n := value.toNat
    decide (∃ b ≤ n, 2 ≤ b ∧ ∃ a ≤ n, a ^ b = n)

/-- `mpq_has_pattern_component`: OR of the enabled pattern checks over
the numerator and (optionally) the denominator. -/
def mpq_has_pattern_component (cfg : Config) (value : Rational)
    (check_num check_den : Bool) : Bool :=
  let found := false
  let found :=
    if check_num then
      let num := value.num
      let found := found || mpz_is_prime_signed num
      let found := found ||
        (cfg.enable_twin_prime_trigger && mpz_is_prime_signed num &&
          (mpz_is_prime_signed (num + 2) || mpz_is_prime_signed (num - 2)))
      let found := found ||
        (cfg.enable_fibonacci_trigger && mpz_is_fibonacci (num.natAbs : Int))
      let found := found ||
        (cfg.enable_perfect_power_trigger && mpz_is_perfect_power (num.natAbs : Int))
      found
    else found
  if check_den then
    let den := value.den
    let found := found || mpz_is_prime_signed den
    let found := found || (cfg.enable_fibonacci_trigger && mpz_is_fibonacci den)
    let found := found || (cfg.enable_perfect_power_trigger && mpz_is_perfect_power den)
    found
  else found

/-- `ratio_bounds`: predefined constant windows for the named trigger
modes. -/
def ratio_bounds (mode : RatioTriggerMode) : Rational × Rational :=
  match mode with
  | RatioTriggerMode.GOLDEN => (rational_set_si 3 2, rational_set_si 17 10)
  | RatioTriggerMode.SQRT2 => (rational_set_si 13 10, rational_set_si 3 2)
  | RatioTriggerMode.PLASTIC => (rational_set_si 6 5, rational_set_si 7 5)
  | _ => (rational_set_si 0 1, rational_set_si 0 1)

/-- `ratio_in_range`: strict in-window test of υ/β against the custom or
predefined bounds. -/
def ratio_in_range (cfg : Config) (st : TRTS_State) : Bool :=
  if cfg.ratio_trigger_mode == RatioTriggerMode.NONE then false
  else if rational_is_zero st.beta then false
  else
    match rational_div st.upsilon st.beta with
    | none => false
    | some ratio =>
        if cfg.ratio_trigger_mode == RatioTriggerMode.CUSTOM &&
            cfg.enable_ratio_custom_range then
          rational_cmp ratio cfg.ratio_custom_lower > 0 &&
          rational_cmp ratio cfg.ratio_custom_upper < 0
        else
          let bounds := ratio_bounds cfg.ratio_trigger_mode
          rational_cmp ratio bounds.1 > 0 && rational_cmp ratio bounds.2 < 0

/-- `ratio_threshold_outside`: |υ/β| below 1/2 or above 2.  The C
converts the ratio to a `double` first; the comparison is modelled
exactly over the integers (a denominator-zero ratio converts to 0.0,
which is below the threshold). -/
def ratio_threshold_outside (cfg : Config) (st : TRTS_State) : Bool :=
  if !cfg.enable_ratio_threshold_psi then false
  else if rational_is_zero st.beta then false
  else
    match rational_div st.upsilon st.beta with
    | none => false
    | some ratio =>
        if ratio.den = 0 then true
        else 2 * ratio.num.natAbs < ratio.den.natAbs ||
          ratio.num.natAbs > 2 * ratio.den.natAbs

/-- `should_fire_psi`: the scheduler-side psi request gate. -/
def should_fire_psi (cfg : Config) (st : TRTS_State)
    (is_memory_step allow_stack : Bool) : Bool :=
  if !is_memory_step || !allow_stack then false
  else
    match cfg.psi_mode with
    | PsiMode.MSTEP => true
    | PsiMode.RHO_ONLY => st.rho_pending
    | PsiMode.MSTEP_RHO => true
    | PsiMode.INHIBIT_RHO => !st.rho_pending

/-- `stack_allows_psi`: psi is allowed only at stack depth 2 or 4 when
the stack-depth feature is enabled. -/
def stack_allows_psi (cfg : Config) (st : TRTS_State) : Bool :=
  if !cfg.enable_stack_depth_modes then true
  else st.koppa_stack.length == 2 || st.koppa_stack.length == 4

/-- Phase of a microtick (`run_simulation` lines 393–404). -/
inductive Phase where
  | E
  | M
  | R
deriving Repr, DecidableEq, BEq

/-- `phase_of`: {1,4,7,10} → E, {2,5,8,11} → M, default → R. -/
def phase_of (microtick : Nat) : Phase :=
  match microtick with
  | 1 | 4 | 7 | 10 => Phase.E
  | 2 | 5 | 8 | 11 => Phase.M
  | _ => Phase.R

/-- Event flags passed to `emit_outputs` with each snapshot. -/
structure EventFlags where
  rho_event : Bool
  psi_fired : Bool
  mu_zero : Bool
  forced_emission : Bool
deriving Repr, DecidableEq

/-- One emitted per-microtick observation (`emit_outputs`): the tick and
microtick counters, the phase, the event flags and the full state after
the phase logic ran. -/
structure Snapshot where
  tick : Nat
  microtick : Nat
  phase : Phase
  rho_event : Bool
  psi_fired : Bool
  mu_zero : Bool
  forced_emission : Bool
  state : TRTS_State
deriving Repr, DecidableEq

/-- Per-microtick transient flag clearing (`run_simulation` lines
412–419). -/
def clear_microtick_flags (st : TRTS_State) : TRTS_State :=
  { st with
    ratio_triggered_recent := false
    psi_triple_recent := false
    dual_engine_last_step := false
    koppa_sample_index := -1
    koppa_sample := st.koppa
    ratio_threshold_recent := false
    psi_strength_applied := false }

/-- E-phase engine part (`run_simulation` lines 424–426): snapshot
ε ← υ, then run the engine step discarding its result. -/
def e_after_engine (cfg : Config) (st : TRTS_State) (microtick : Nat) :
    TRTS_State :=
  (engine_step cfg { st with epsilon := st.upsilon } microtick).2

/-- E-phase pattern hit (`run_simulation` lines 429–434): pattern check
against the freshly computed υ. -/
def e_pattern_hit (cfg : Config) (st : TRTS_State) (microtick : Nat) : Bool :=
  cfg.prime_target == PrimeTarget.ON_NEW_UPSILON &&
    mpq_has_pattern_component cfg (e_after_engine cfg st microtick).upsilon
      true false

/-- E-phase state after the pattern check set the ρ latch on a hit. -/
def e_after_pattern (cfg : Config) (st : TRTS_State) (microtick : Nat) :
    TRTS_State :=
  if e_pattern_hit cfg st microtick then
    { e_after_engine cfg st microtick with rho_pending := true }
  else e_after_engine cfg st microtick

/-- Microtick-10 forced-psi condition (`run_simulation` line 438). -/
def e_forced_rho (cfg : Config) (microtick : Nat) : Bool :=
  microtick == 10 && cfg.mt10_behavior == MT10Behavior.FORCED_PSI

/-- E-phase logic (`run_simulation` lines 423–443): snapshot ε ← υ, run
Engine Step, pattern-check the fresh υ, and apply the microtick-10 forced
behavior. -/
def run_phase_E (cfg : Config) (st : TRTS_State) (microtick : Nat) :
    EventFlags × TRTS_State :=
  ({ rho_event := e_pattern_hit cfg st microtick || e_forced_rho cfg microtick,
     psi_fired := false, mu_zero := false,
     forced_emission := microtick == 10 },
   if e_forced_rho cfg microtick then
     { e_after_pattern cfg st microtick with rho_pending := true }
   else e_after_pattern cfg st microtick)

/-- M-phase pattern hit (`run_simulation` lines 450–455): pattern check
against β's numerator and denominator. -/
def m_pattern_hit (cfg : Config) (st : TRTS_State) : Bool :=
  cfg.prime_target == PrimeTarget.ON_MEMORY &&
    mpq_has_pattern_component cfg st.beta true true

/-- M-phase state after the pattern check set the ρ latch on a hit. -/
def m_after_pattern (cfg : Config) (st : TRTS_State) : TRTS_State :=
  if m_pattern_hit cfg st then { st with rho_pending := true } else st

/-- M-phase state after the in-range ratio trigger recorded itself. -/
def m_after_ratio (cfg : Config) (st : TRTS_State) : TRTS_State :=
  if ratio_in_range cfg st then { st with ratio_triggered_recent := true }
  else st

/-- M-phase state after the ratio-threshold trigger recorded itself. -/
def m_after_threshold (cfg : Config) (st : TRTS_State) : TRTS_State :=
  if ratio_threshold_outside cfg st then
    { st with ratio_threshold_recent := true }
  else st

/-- M-phase state when the psi decision is made (after the pattern check
and both ratio triggers, in source order). -/
def m_state_c (cfg : Config) (st : TRTS_State) : TRTS_State :=
  m_after_threshold cfg (m_after_ratio cfg (m_after_pattern cfg st))

/-- The combined psi request of the M phase (`run_simulation` lines
457–475): the mode gate, forced by either ratio trigger, and the stack
gate (`request_psi && allow_stack`). -/
def m_request (cfg : Config) (st : TRTS_State) : Bool :=
  (should_fire_psi cfg (m_after_pattern cfg st) true
      (stack_allows_psi cfg (m_after_pattern cfg st)) ||
    ratio_in_range cfg (m_after_pattern cfg st) ||
    ratio_threshold_outside cfg (m_after_ratio cfg (m_after_pattern cfg st)))
  && stack_allows_psi cfg (m_after_pattern cfg st)

/-- The psi outcome of the M phase (`run_simulation` lines 474–479):
the transform when requested and allowed, otherwise no fire and the
recent-psi flag cleared. -/
def m_psi_result (cfg : Config) (st : TRTS_State) : Bool × TRTS_State :=
  if m_request cfg st then psi_transform cfg (m_state_c cfg st)
  else (false, { m_state_c cfg st with psi_recent := false })

/-- M-phase logic (`run_simulation` lines 445–485): pattern check on β,
psi decision, psi transform, koppa accrual, latch clear. -/
def run_phase_M (cfg : Config) (st : TRTS_State) (microtick : Nat) :
    EventFlags × TRTS_State :=
  ({ rho_event := m_pattern_hit cfg st,
     psi_fired := (m_psi_result cfg st).1,
     mu_zero := rational_is_zero st.beta, forced_emission := false },
   { koppa_accrue cfg (m_psi_result cfg st).2 (m_psi_result cfg st).1
       true microtick with rho_latched := false })

/-- R-phase logic (`run_simulation` lines 487–493): koppa accrual without
psi, then clear the recent-psi and latched flags. -/
def run_phase_R (cfg : Config) (st : TRTS_State) (microtick : Nat) :
    EventFlags × TRTS_State :=
  let st := koppa_accrue cfg st false false microtick
  let st := { st with psi_recent := false, rho_latched := false }
  ({ rho_event := false, psi_fired := false, mu_zero := false,
     forced_emission := false }, st)

/-- One microtick of the scheduler loop: flag clearing, the phase logic,
and the emitted snapshot. -/
def run_microtick (cfg : Config) (st : TRTS_State) (tick microtick : Nat) :
    Snapshot × TRTS_State :=
  let st0 := clear_microtick_flags st
  let p :=
    match phase_of microtick with
    | Phase.E => run_phase_E cfg st0 microtick
    | Phase.M => run_phase_M cfg st0 microtick
    | Phase.R => run_phase_R cfg st0 microtick
  ({ tick := tick, microtick := microtick, phase := phase_of microtick,
     rho_event := p.1.rho_event, psi_fired := p.1.psi_fired,
     mu_zero := p.1.mu_zero, forced_emission := p.1.forced_emission,
     state := p.2 }, p.2)

/-- Run the given microticks of one tick in order, collecting the emitted
snapshots. -/
def run_microticks (cfg : Config) (tick : Nat) :
    List Nat → TRTS_State → List Snapshot × TRTS_State
  | [], st => ([], st)
  | mt :: rest, st =>
      let p := run_microtick cfg st tick mt
      let q := run_microticks cfg tick rest p.2
      (p.1 :: q.1, q.2)

/-- The 11 microticks of one tick. -/
def microtick_list : List Nat := [1, 2, 3, 4, 5, 6, 7, 8, 9, 10, 11]

/-- One full tick: the 11 microticks in order. -/
def run_tick (cfg : Config) (st : TRTS_State) (tick : Nat) :
    List Snapshot × TRTS_State :=
  run_microticks cfg tick microtick_list st

/-- The outer tick loop (`run_simulation` lines 387–501), recursing on
the number of remaining ticks with the 1-based tick counter. -/
def run_ticks (cfg : Config) : Nat → Nat → TRTS_State → List Snapshot × TRTS_State
  | 0, _, st => ([], st)
  | n + 1, t, st =>
      let p := run_tick cfg { st with tick := t } t
      let q := run_ticks cfg n (t + 1) p.2
      (p.1 ++ q.1, q.2)

/-- `run_simulation`: reset the state from the configuration, run exactly
`cfg.ticks` ticks of 11 microticks each, and return the emitted snapshots
in order. -/
def run_simulation (cfg : Config) : List Snapshot :=
  (run_ticks cfg cfg.ticks 1 (state_reset cfg)).1

/-! Spec-side definitions and concrete instances used by the claims. -/

/-- Zero rule lifted to all rational registers of a state: υ, β, κ, ε, φ,
the previous-value shadows, the deltas, the triangle ratios, every
history slot and the sample. -/
def state_zero_rule (st : TRTS_State) : Prop :=
  rational_zero_rule st.upsilon ∧ rational_zero_rule st.beta ∧
  rational_zero_rule st.koppa ∧ rational_zero_rule st.epsilon ∧
  rational_zero_rule st.phi ∧ rational_zero_rule st.previous_upsilon ∧
  rational_zero_rule st.previous_beta ∧ rational_zero_rule st.delta_upsilon ∧
  rational_zero_rule st.delta_beta ∧
  rational_zero_rule st.triangle_phi_over_epsilon ∧
  rational_zero_rule st.triangle_prev_over_phi ∧
  rational_zero_rule st.triangle_epsilon_over_prev ∧
  (∀ q ∈ st.koppa_stack, rational_zero_rule q) ∧
  rational_zero_rule st.koppa_sample

instance (st : TRTS_State) : Decidable (state_zero_rule st) := by
  unfold state_zero_rule; infer_instance

/-- Per-iteration triple decision as the specification words it (for
comparison with `psi_request_triple` from the source): triple whenever
the triple mode is global, or conditional triple with all three
numerators prime, or the iteration lies WITHIN THE FINAL THREE of a
burst of length at least 3. -/
def psi_request_triple_claimed (cfg : Config) (st : TRTS_State)
    (strength i : Nat) : Bool :=
  cfg.triple_psi_mode ||
  (cfg.enable_conditional_triple_psi &&
    (numerator_is_prime st.upsilon && numerator_is_prime st.beta &&
      numerator_is_prime st.koppa)) ||
  (strength ≥ 3 && strength - 3 ≤ i && i < strength)

/-- The tick/microtick schedule the specification promises: starting at
tick `t`, for `n` ticks, the 11 microticks in order. -/
def expected_schedule : Nat → Nat → List (Nat × Nat)
  | 0, _ => []
  | n + 1, t => microtick_list.map (fun m => (t, m)) ++ expected_schedule n (t + 1)

/-- A neutral configuration: shared ADD engine, every optional feature
disabled, one tick, seeds υ=1/1, β=1/1, κ=0/0. -/
def baseConfig : Config where
  engine_mode := EngineMode.ADD
  engine_upsilon := EngineTrackMode.ADD
  engine_beta := EngineTrackMode.ADD
  psi_mode := PsiMode.MSTEP
  koppa_mode := KoppaMode.ACCUMULATE
  koppa_trigger := KoppaTrigger.ON_ALL_MU
  prime_target := PrimeTarget.ON_DELTA
  mt10_behavior := MT10Behavior.NONE
  sign_flip_mode := SignFlipMode.NONE
  ratio_trigger_mode := RatioTriggerMode.NONE
  dual_track_mode := false
  triple_psi_mode := false
  multi_level_koppa := false
  enable_asymmetric_cascade := false
  enable_conditional_triple_psi := false
  enable_koppa_gated_engine := false
  enable_delta_cross_propagation := false
  enable_delta_koppa_offset := false
  enable_ratio_threshold_psi := false
  enable_stack_depth_modes := false
  enable_sign_flip := false
  enable_epsilon_phi_triangle := false
  enable_modular_wrap := false
  enable_psi_strength_parameter := false
  enable_ratio_custom_range := false
  enable_twin_prime_trigger := false
  enable_fibonacci_trigger := false
  enable_perfect_power_trigger := false
  ticks := 1
  initial_upsilon := ⟨1, 1⟩
  initial_beta := ⟨1, 1⟩
  initial_koppa := ⟨0, 0⟩
  ratio_custom_lower := ⟨0, 0⟩
  ratio_custom_upper := ⟨0, 0⟩
  koppa_wrap_threshold := 0
  modulus_bound := 0

/-- A throwaway snapshot used as the default of `List.getD`. -/
def null_snapshot : Snapshot where
  tick := 0
  microtick := 0
  phase := Phase.R
  rho_event := false
  psi_fired := false
  mu_zero := false
  forced_emission := false
  state := state_reset baseConfig

/-- Configuration exercising the modulus-bound numerator reduction:
modular wrap with bound 5, seeds υ=1/1, β=1/1, κ=3/1, so the first engine
step produces υ = 5/1 and the wrap rewrites it to 0/1. -/
def wrapConfig : Config :=
  { baseConfig with
    enable_modular_wrap := true
    modulus_bound := 5
    initial_koppa := ⟨3, 1⟩
    psi_mode := PsiMode.INHIBIT_RHO
    koppa_trigger := KoppaTrigger.ON_PSI }

/-- Configuration whose (shared) SLIDE engine fails whenever κ is the
zero-rational. -/
def slideConfig : Config :=
  { baseConfig with engine_mode := EngineMode.SLIDE }

/-- A state whose delta register disagrees with (current − previous):
υ = 1/1, previous υ = 5/1, but Δυ = 7/1 (as happens after a psi fire
mutates υ between two engine steps). -/
def staleDeltaState : TRTS_State :=
  { state_reset baseConfig with
    upsilon := ⟨1, 1⟩
    beta := ⟨1, 1⟩
    koppa := ⟨0, 0⟩
    previous_upsilon := ⟨5, 1⟩
    delta_upsilon := ⟨7, 1⟩ }

/-- Configuration with a triggered DUMP accrual on every microtick. -/
def dumpConfig : Config :=
  { baseConfig with koppa_mode := KoppaMode.DUMP }

/-- A state with nonzero υ = 1/1 and β = 1/1 (υ + β = 2/1) and κ = 7/1. -/
def dumpState : TRTS_State :=
  { state_reset baseConfig with
    upsilon := ⟨1, 1⟩
    beta := ⟨1, 1⟩
    koppa := ⟨7, 1⟩ }

/-- Configuration with multi-level history enabled and a trigger that
never fires without psi. -/
def samplingConfig : Config :=
  { baseConfig with
    multi_level_koppa := true
    koppa_trigger := KoppaTrigger.ON_PSI }

/-- A state with three distinct history slots. -/
def samplingState : TRTS_State :=
  { state_reset baseConfig with
    koppa_stack := [⟨1, 1⟩, ⟨2, 1⟩, ⟨3, 1⟩]
    koppa := ⟨7, 1⟩ }

/-- Configuration for the inhibit-mode claim: psi mode INHIBIT_RHO, ratio
trigger NONE, ratio-threshold feature disabled. -/
def inhibitConfig : Config :=
  { baseConfig with psi_mode := PsiMode.INHIBIT_RHO }

/-! Zero-rule preservation lemmas for the rational layer. -/

theorem zr_set_components {n d : Int} (h : d = 0 → n = 0) :
    rational_zero_rule (rational_set_components n d) := by
  unfold rational_set_components normalizeZero rational_zero_rule
  by_cases hn : n = 0 <;> simp [hn]
  intro hd
  exact hn (h hd)

theorem zr_set_components_of_den_ne {n d : Int} (h : d ≠ 0) :
    rational_zero_rule (rational_set_components n d) :=
  zr_set_components (fun hd => absurd hd h)

theorem zr_add {a b : Rational} (ha : rational_zero_rule a)
    (hb : rational_zero_rule b) : rational_zero_rule (rational_add a b) := by
  unfold rational_add
  apply zr_set_components
  intro hd
  rcases mul_eq_zero.mp hd with h | h
  · rw [ha.mpr h, h]; ring
  · rw [hb.mpr h, h]; ring

theorem zr_sub {a b : Rational} (ha : rational_zero_rule a)
    (hb : rational_zero_rule b) : rational_zero_rule (rational_sub a b) := by
  unfold rational_sub
  apply zr_set_components
  intro hd
  rcases mul_eq_zero.mp hd with h | h
  · rw [ha.mpr h, h]; ring
  · rw [hb.mpr h, h]; ring

theorem zr_mul {a b : Rational} (ha : rational_zero_rule a)
    (hb : rational_zero_rule b) : rational_zero_rule (rational_mul a b) := by
  unfold rational_mul
  apply zr_set_components
  intro hd
  rcases mul_eq_zero.mp hd with h | h
  · rw [ha.mpr h]; ring
  · rw [hb.mpr h]; ring

theorem zr_div_raw {a b : Rational} (ha : rational_zero_rule a)
    (hb : b.num ≠ 0) : rational_zero_rule (rational_div_raw a b) := by
  unfold rational_div_raw
  apply zr_set_components
  intro hd
  rcases mul_eq_zero.mp hd with h | h
  · rw [ha.mpr h]; ring
  · exact absurd h hb

theorem zr_negate {q : Rational} (hq : rational_zero_rule q) :
    rational_zero_rule (rational_negate q) := by
  unfold rational_negate normalizeZero rational_zero_rule
  by_cases hn : q.num = 0 <;> simp [hn]
  intro hd
  exact hn (hq.mpr hd)

theorem zr_set_si (n : Int) {d : Int} (hd : d ≠ 0) :
    rational_zero_rule (rational_set_si n d) := by
  unfold rational_set_si rational_zero_rule
  by_cases hn : n = 0 <;> simp [hn, hd]

theorem zr_floor {q : Rational} (hq : rational_zero_rule q) :
    rational_zero_rule (rational_floor q) := by
  unfold rational_floor
  split
  · exact hq
  · exact zr_set_si _ one_ne_zero

theorem zr_mod {a b : Rational} (ha : rational_zero_rule a)
    (hb : rational_zero_rule b) : rational_zero_rule (rational_mod a b) := by
  unfold rational_mod
  split
  · exact ha
  · next h =>
    have hbn : b.num ≠ 0 := by
      simpa [rational_is_zero] using h
    exact zr_sub ha (zr_mul hb (zr_floor (zr_div_raw ha hbn)))

theorem zr_zero_zero : rational_zero_rule ⟨0, 0⟩ := by
  unfold rational_zero_rule; simp

/-- Adding the undefined marker 0/0 on the left absorbs: the numerator of
the result is 0·b.den + b.num·0 = 0, so the zero rule collapses the
result to 0/0. -/
theorem add_zero_rational_left (b : Rational) :
    rational_add ⟨0, 0⟩ b = ⟨0, 0⟩ := by
  simp [rational_add, rational_set_components, normalizeZero]

theorem add_zero_rational_right (a : Rational) :
    rational_add a ⟨0, 0⟩ = ⟨0, 0⟩ := by
  simp [rational_add, rational_set_components, normalizeZero]

/-! Helper lemmas about the koppa accrual. -/

theorem koppa_update_sample_koppa (st : TRTS_State) (mt : Nat) (ml : Bool) :
    (koppa_update_sample st mt ml).koppa = st.koppa := by
  unfold koppa_update_sample
  split
  · rfl
  · split <;> rfl

theorem koppa_update_sample_stack (st : TRTS_State) (mt : Nat) (ml : Bool) :
    (koppa_update_sample st mt ml).koppa_stack = st.koppa_stack := by
  unfold koppa_update_sample
  split
  · rfl
  · split <;> rfl

theorem koppa_stack_push_koppa (st : TRTS_State) (v : Rational) :
    (koppa_stack_push st v).koppa = st.koppa := by
  unfold koppa_stack_push
  split <;> rfl

theorem koppa_premix_koppa (cfg : Config) (st : TRTS_State) :
    (koppa_premix cfg st).koppa = st.koppa := by
  unfold koppa_premix
  split
  · exact koppa_stack_push_koppa st st.koppa
  · rfl

theorem koppa_apply_mode_dump (cfg : Config) (st : TRTS_State)
    (h : cfg.koppa_mode = KoppaMode.DUMP) :
    koppa_apply_mode cfg st = koppa_dump st := by
  unfold koppa_apply_mode
  rw [h]

theorem koppa_apply_mode_accumulate (cfg : Config) (st : TRTS_State)
    (h : cfg.koppa_mode = KoppaMode.ACCUMULATE) :
    koppa_apply_mode cfg st = koppa_accumulate st := by
  unfold koppa_apply_mode
  rw [h]

theorem set_si_zero_one : rational_set_si 0 1 = (⟨0, 0⟩ : Rational) := rfl

theorem koppa_operate_dump (cfg : Config) (st : TRTS_State)
    (h : cfg.koppa_mode = KoppaMode.DUMP) :
    (koppa_operate cfg st).koppa = ⟨0, 0⟩ := by
  unfold koppa_operate koppa_add_upsilon_beta
  rw [koppa_apply_mode_dump cfg _ h]
  dsimp only [koppa_dump]
  rw [set_si_zero_one, add_zero_rational_left]

theorem koppa_operate_accumulate_zero (cfg : Config) (st : TRTS_State)
    (h : cfg.koppa_mode = KoppaMode.ACCUMULATE) (hk : st.koppa = ⟨0, 0⟩) :
    (koppa_operate cfg st).koppa = ⟨0, 0⟩ := by
  unfold koppa_operate koppa_add_upsilon_beta
  rw [koppa_apply_mode_accumulate cfg _ h]
  dsimp only [koppa_accumulate]
  rw [koppa_premix_koppa, hk, add_zero_rational_left, add_zero_rational_left]

/-- Claim C6: rational division fails with DivisionByZero exactly when
the divisor's numerator is 0 (its denominator is never consulted), while
modulo by the zero-rational does not fail and returns the left operand
unchanged. -/
theorem div_mod_error_asymmetry (a b : Rational) :
    (rational_div a b = none ↔ b.num = 0) ∧
    (rational_is_zero b = true → rational_mod a b = a) := by
  constructor
  · unfold rational_div
    split <;> simp_all
  · intro h
    unfold rational_mod
    simp [h]

theorem div_mod_error_asymmetry_witness :
    rational_div ⟨3, 4⟩ ⟨0, 7⟩ = none ∧ rational_mod ⟨3, 4⟩ ⟨0, 7⟩ = ⟨3, 4⟩ :=
  ⟨(div_mod_error_asymmetry ⟨3, 4⟩ ⟨0, 7⟩).1.mpr (by decide),
   (div_mod_error_asymmetry ⟨3, 4⟩ ⟨0, 7⟩).2 (by decide)⟩

/-- Claim C9 as literally stated is false: a denominator-zero operand
with a nonzero numerator (representable in the data type) is not
absorbed to 0/0 by addition — 5/0 + 1/1 evaluates to 5/0. -/
theorem zero_absorption_counterexample :
    rational_add ⟨5, 0⟩ ⟨1, 1⟩ = ⟨5, 0⟩ ∧
    (Rational.mk 5 0) ≠ ⟨0, 0⟩ := by decide

/-- Claim C9 (amended): when either operand is the undefined marker 0/0
itself (numerator AND denominator zero), add, subtract and multiply all
return 0/0; consequently a κ that has become 0/0 stays 0/0 through an
ACCUMULATE accrual, including its unconditional addition of (υ + β). -/
theorem zero_rational_absorption (a b : Rational) (cfg : Config)
    (st : TRTS_State) (psi_fired is_memory_step : Bool) (microtick : Nat)
    (hab : a = ⟨0, 0⟩ ∨ b = ⟨0, 0⟩)
    (hmode : cfg.koppa_mode = KoppaMode.ACCUMULATE)
    (hk : st.koppa = ⟨0, 0⟩) :
    (rational_add a b = ⟨0, 0⟩ ∧ rational_sub a b = ⟨0, 0⟩ ∧
      rational_mul a b = ⟨0, 0⟩) ∧
    (koppa_accrue cfg st psi_fired is_memory_step microtick).koppa = ⟨0, 0⟩ := by
  constructor
  · rcases hab with h | h <;> subst h <;>
      exact ⟨by simp [rational_add, rational_set_components, normalizeZero],
        by simp [rational_sub, rational_set_components, normalizeZero],
        by simp [rational_mul, rational_set_components, normalizeZero]⟩
  · unfold koppa_accrue
    split
    · rw [koppa_update_sample_koppa]
      exact hk
    · rw [koppa_update_sample_koppa]
      exact koppa_operate_accumulate_zero cfg _ hmode hk

theorem zero_rational_absorption_witness :
    rational_add ⟨0, 0⟩ ⟨2, 3⟩ = ⟨0, 0⟩ ∧
    (koppa_accrue baseConfig { state_reset baseConfig with koppa := ⟨0, 0⟩ }
      false false 3).koppa = ⟨0, 0⟩ :=
  ⟨(zero_rational_absorption ⟨0, 0⟩ ⟨2, 3⟩ baseConfig
      { state_reset baseConfig with koppa := ⟨0, 0⟩ } false false 3
      (Or.inl rfl) rfl rfl).1.1,
   (zero_rational_absorption ⟨0, 0⟩ ⟨2, 3⟩ baseConfig
      { state_reset baseConfig with koppa := ⟨0, 0⟩ } false false 3
      (Or.inl rfl) rfl rfl).2⟩

/-- Claim C3 as stated is false: after a triggered DUMP accrual with
υ = β = 1/1 (so υ + β = 2/1), κ is the absorbed marker 0/0, not υ + β —
DUMP writes κ as 0/0 (the integer setter collapses a zero numerator) and
0/0 + (υ + β) stays 0/0. -/
theorem koppa_dump_counterexample :
    (koppa_accrue dumpConfig dumpState false false 3).koppa = ⟨0, 0⟩ ∧
    rational_add dumpState.upsilon dumpState.beta = ⟨2, 1⟩ ∧
    (koppa_accrue dumpConfig dumpState false false 3).koppa ≠
      rational_add dumpState.upsilon dumpState.beta := by decide

/-- Claim C3 (amended): whenever a koppa accrual is triggered with
operation mode DUMP, after the call κ is the zero-rational 0/0, for every
state in which the accrual triggers (DUMP collapses κ to 0/0 because the
integer setter enforces the zero rule, and the unconditional addition of
(υ + β) to 0/0 is absorbed). -/
theorem koppa_dump_result (cfg : Config) (st : TRTS_State)
    (psi_fired is_memory_step : Bool) (microtick : Nat)
    (hmode : cfg.koppa_mode = KoppaMode.DUMP)
    (htrig : koppa_trigger_eval cfg st psi_fired is_memory_step = true) :
    (koppa_accrue cfg st psi_fired is_memory_step microtick).koppa = ⟨0, 0⟩ := by
  unfold koppa_accrue
  rw [htrig]
  simp only [Bool.not_true, Bool.false_eq_true, if_false]
  rw [koppa_update_sample_koppa]
  exact koppa_operate_dump cfg _ hmode

theorem koppa_dump_result_witness :
    (koppa_accrue dumpConfig dumpState false true 2).koppa = ⟨0, 0⟩ :=
  koppa_dump_result dumpConfig dumpState false true 2 rfl (by decide)

/-- Claim C4 as stated is false: on an accrual call at microtick 5 with a
3-entry history, the code samples history slot 0 (the oldest), not slot 2
as claimed — here slot 0 holds 1/1 and slot 2 holds 3/1. -/
theorem koppa_sampling_counterexample :
    (koppa_accrue samplingConfig samplingState false false 5).koppa_sample = ⟨1, 1⟩ ∧
    (koppa_accrue samplingConfig samplingState false false 5).koppa_sample_index = 0 ∧
    samplingState.koppa_stack.getD 2 ⟨0, 0⟩ = ⟨3, 1⟩ ∧
    (koppa_accrue samplingConfig samplingState false false 5).koppa_sample ≠
      samplingState.koppa_stack.getD 2 ⟨0, 0⟩ := by decide

/-- Claim C4 (amended): the sampling step run at the end of every koppa
accrual call behaves as follows — if multi-level history is disabled or
the history is empty, the sampled κ is the current κ and the sampled
index is left unchanged; otherwise at microtick 5 the sample is history
slot 0 (index 0), at microtick 11 it is history slot 2 (index 2) when at
least 3 entries are present, and any other microtick (or a missing slot)
falls back to the current κ with index −1. -/
theorem koppa_sampling_rule (st : TRTS_State) (mt : Nat) (ml : Bool) :
    ((ml = false ∨ st.koppa_stack.length = 0) →
      (koppa_update_sample st mt ml).koppa_sample = st.koppa ∧
      (koppa_update_sample st mt ml).koppa_sample_index = st.koppa_sample_index) ∧
    (ml = true → mt = 5 → st.koppa_stack.length ≥ 1 →
      (koppa_update_sample st mt ml).koppa_sample = st.koppa_stack.getD 0 ⟨0, 0⟩ ∧
      (koppa_update_sample st mt ml).koppa_sample_index = 0) ∧
    (ml = true → mt = 11 → st.koppa_stack.length ≥ 3 →
      (koppa_update_sample st mt ml).koppa_sample = st.koppa_stack.getD 2 ⟨0, 0⟩ ∧
      (koppa_update_sample st mt ml).koppa_sample_index = 2) ∧
    (ml = true → st.koppa_stack.length ≠ 0 → mt ≠ 5 →
      ¬(mt = 11 ∧ st.koppa_stack.length ≥ 3) →
      (koppa_update_sample st mt ml).koppa_sample = st.koppa ∧
      (koppa_update_sample st mt ml).koppa_sample_index = -1) := by
  refine ⟨?_, ?_, ?_, ?_⟩
  · rintro (h | h) <;>
      simp [koppa_update_sample, h]
  · intro hml hmt hlen
    subst hml hmt
    have hne : st.koppa_stack.length ≠ 0 := by omega
    simp [koppa_update_sample, koppa_sample_choice, hne, hlen]
  · intro hml hmt hlen
    subst hml hmt
    have hne : st.koppa_stack.length ≠ 0 := by omega
    simp [koppa_update_sample, koppa_sample_choice, hne, hlen]
  · intro hml hne hmt5 hmt11
    subst hml
    have h5 : (mt == 5) = false := by simp [hmt5]
    have h11 : ¬(mt = 11 ∧ 3 ≤ st.koppa_stack.length) := by
      intro h
      exact hmt11 ⟨h.1, h.2⟩
    simp only [koppa_update_sample, koppa_sample_choice, h5, Bool.false_and,
      Bool.false_eq_true, if_false]
    by_cases hm : mt = 11
    · subst hm
      have : ¬(3 ≤ st.koppa_stack.length) := fun hc => h11 ⟨rfl, hc⟩
      simp [hne, this]
    · have hb : (mt == 11) = false := by simp [hm]
      simp [hne, hb]

theorem koppa_sampling_rule_witness :
    (koppa_update_sample samplingState 5 true).koppa_sample
      = samplingState.koppa_stack.getD 0 ⟨0, 0⟩ ∧
    (koppa_update_sample samplingState 5 true).koppa_sample_index = 0 :=
  (koppa_sampling_rule samplingState 5 true).2.1 rfl rfl (by decide)

/-- Claim C7 as stated is false: with no global or conditional triple
configured, iteration 2 of a strength-4 burst lies within the final three
iterations (the spec's condition holds), yet the code requests the triple
shape only at the single iteration strength − 3 = 1, so iteration 2 is a
standard 2-way fire. -/
theorem psi_triple_decision_counterexample :
    psi_request_triple_claimed baseConfig (state_reset baseConfig) 4 2 = true ∧
    psi_request_triple baseConfig (state_reset baseConfig) 4 2 = false := by
  decide

/-- Claim C7 (amended): iteration i of the transform loop uses the triple
shape exactly when triple-psi mode is globally configured, or the
conditional-triple feature is enabled and all three of υ, β, κ currently
have prime numerators, or i is EXACTLY THE THIRD-TO-LAST iteration
(i = s − 3) of a burst of length s ≥ 3. -/
theorem psi_triple_decision (cfg : Config) (st : TRTS_State) (strength i : Nat) :
    psi_request_triple cfg st strength i =
      (cfg.triple_psi_mode ||
        (cfg.enable_conditional_triple_psi &&
          (numerator_is_prime st.upsilon && numerator_is_prime st.beta &&
            numerator_is_prime st.koppa)) ||
        (strength ≥ 3 && i == strength - 3)) := by
  unfold psi_request_triple
  by_cases h2 : (cfg.enable_conditional_triple_psi &&
      (numerator_is_prime st.upsilon && numerator_is_prime st.beta &&
        numerator_is_prime st.koppa)) = true
  · by_cases h3 : (decide (strength ≥ 3) && (i == strength - 3)) = true <;>
      simp [h2, h3]
  · by_cases h3 : (decide (strength ≥ 3) && (i == strength - 3)) = true <;>
      simp [h2, h3]

/-- Claim C8: under psi modes RHO_ONLY and MSTEP_RHO, on any tick that is
not in the hardcoded Fibonacci tick table the psi transform reports no
fire and leaves every rational register (and the history) untouched, even
when the pending-trigger latch is set; in particular ticks 1 through 4
are not in the table, so psi never fires during them in those modes. -/
theorem psi_fibonacci_tick_gate (cfg : Config) (st : TRTS_State)
    (hmode : cfg.psi_mode = PsiMode.RHO_ONLY ∨ cfg.psi_mode = PsiMode.MSTEP_RHO)
    (hfib : is_fibonacci_tick st.tick = false) :
    (psi_transform cfg st).1 = false ∧
    (psi_transform cfg st).2.upsilon = st.upsilon ∧
    (psi_transform cfg st).2.beta = st.beta ∧
    (psi_transform cfg st).2.koppa = st.koppa ∧
    (psi_transform cfg st).2.epsilon = st.epsilon ∧
    (psi_transform cfg st).2.phi = st.phi ∧
    (psi_transform cfg st).2.previous_upsilon = st.previous_upsilon ∧
    (psi_transform cfg st).2.previous_beta = st.previous_beta ∧
    (psi_transform cfg st).2.delta_upsilon = st.delta_upsilon ∧
    (psi_transform cfg st).2.delta_beta = st.delta_beta ∧
    (psi_transform cfg st).2.koppa_stack = st.koppa_stack ∧
    (psi_transform cfg st).2.koppa_sample = st.koppa_sample ∧
    (∀ t, t ≤ 4 → is_fibonacci_tick t = false) := by
  have ht : (psi_clear_flags st).tick = st.tick := rfl
  have hcond : ((cfg.psi_mode == PsiMode.RHO_ONLY ||
      cfg.psi_mode == PsiMode.MSTEP_RHO) &&
      (!(psi_clear_flags st).rho_pending ||
        !is_fibonacci_tick (psi_clear_flags st).tick)) = true := by
    rw [ht, hfib]
    rcases hmode with h | h <;> rw [h] <;> simp <;> decide
  have hrun : psi_transform cfg st = (false, psi_clear_flags st) := by
    simp only [psi_transform]
    rw [hcond]
    simp
  rw [hrun]
  refine ⟨rfl, rfl, rfl, rfl, rfl, rfl, rfl, rfl, rfl, rfl, rfl, rfl, ?_⟩
  decide

theorem psi_fibonacci_tick_gate_witness :
    (psi_transform { baseConfig with psi_mode := PsiMode.RHO_ONLY }
      { state_reset baseConfig with tick := 3, rho_pending := true }).1 = false :=
  (psi_fibonacci_tick_gate { baseConfig with psi_mode := PsiMode.RHO_ONLY }
    { state_reset baseConfig with tick := 3, rho_pending := true }
    (Or.inl rfl) (by decide)).1

/-! Projection lemmas for the engine helpers. -/

theorem update_triangle_upsilon (cfg : Config) (st : TRTS_State) :
    (update_triangle cfg st).upsilon = st.upsilon := by
  unfold update_triangle; split <;> rfl

theorem update_triangle_beta (cfg : Config) (st : TRTS_State) :
    (update_triangle cfg st).beta = st.beta := by
  unfold update_triangle; split <;> rfl

theorem update_triangle_previous_upsilon (cfg : Config) (st : TRTS_State) :
    (update_triangle cfg st).previous_upsilon = st.previous_upsilon := by
  unfold update_triangle; split <;> rfl

theorem update_triangle_previous_beta (cfg : Config) (st : TRTS_State) :
    (update_triangle cfg st).previous_beta = st.previous_beta := by
  unfold update_triangle; split <;> rfl

theorem update_triangle_delta_upsilon (cfg : Config) (st : TRTS_State) :
    (update_triangle cfg st).delta_upsilon = st.delta_upsilon := by
  unfold update_triangle; split <;> rfl

theorem update_triangle_delta_beta (cfg : Config) (st : TRTS_State) :
    (update_triangle cfg st).delta_beta = st.delta_beta := by
  unfold update_triangle; split <;> rfl

theorem engine_poststate_upsilon (cfg : Config) (st : TRTS_State) (mt : Nat) :
    (engine_poststate cfg st mt).upsilon = st.upsilon := by
  unfold engine_poststate; rw [update_triangle_upsilon]; rfl

theorem engine_poststate_beta (cfg : Config) (st : TRTS_State) (mt : Nat) :
    (engine_poststate cfg st mt).beta = st.beta := by
  unfold engine_poststate; rw [update_triangle_beta]; rfl

theorem engine_poststate_previous_upsilon (cfg : Config) (st : TRTS_State) (mt : Nat) :
    (engine_poststate cfg st mt).previous_upsilon = st.previous_upsilon := by
  unfold engine_poststate; rw [update_triangle_previous_upsilon]; rfl

theorem engine_poststate_previous_beta (cfg : Config) (st : TRTS_State) (mt : Nat) :
    (engine_poststate cfg st mt).previous_beta = st.previous_beta := by
  unfold engine_poststate; rw [update_triangle_previous_beta]; rfl

theorem engine_poststate_delta_upsilon (cfg : Config) (st : TRTS_State) (mt : Nat) :
    (engine_poststate cfg st mt).delta_upsilon =
      rational_delta st.upsilon st.previous_upsilon := by
  unfold engine_poststate; rw [update_triangle_delta_upsilon]; rfl

theorem engine_poststate_delta_beta (cfg : Config) (st : TRTS_State) (mt : Nat) :
    (engine_poststate cfg st mt).delta_beta =
      rational_delta st.beta st.previous_beta := by
  unfold engine_poststate; rw [update_triangle_delta_beta]; rfl

/-- Claim C1 as stated is false: on an engine-step failure the delta
registers are NOT restored — `engine_step` overwrites Δυ/Δβ with
(current − previous) before the success of the step is known.  With
Δυ = 7/1 but υ − υ_prev = 1/1 − 5/1 = −4/0·… ≠ 7/1 and a SLIDE step that
fails on κ = 0/0, the failed call changes Δυ. -/
theorem engine_step_failure_counterexample :
    (engine_step slideConfig staleDeltaState 1).1 = false ∧
    (engine_step slideConfig staleDeltaState 1).2.delta_upsilon ≠
      staleDeltaState.delta_upsilon := by decide

/-- Claim C1 (amended): if `engine_step` returns failure, υ, β and the
previous-value shadows are bit-for-bit identical before and after the
call and the dual-track flag is cleared, but the delta registers Δυ and
Δβ are overwritten with (current − previous-shadow), which changes them
whenever they did not already hold that difference. -/
theorem engine_step_failure_effects (cfg : Config) (st : TRTS_State) (mt : Nat)
    (h : (engine_step cfg st mt).1 = false) :
    (engine_step cfg st mt).2.upsilon = st.upsilon ∧
    (engine_step cfg st mt).2.beta = st.beta ∧
    (engine_step cfg st mt).2.previous_upsilon = st.previous_upsilon ∧
    (engine_step cfg st mt).2.previous_beta = st.previous_beta ∧
    (engine_step cfg st mt).2.delta_upsilon =
      rational_delta st.upsilon st.previous_upsilon ∧
    (engine_step cfg st mt).2.delta_beta =
      rational_delta st.beta st.previous_beta ∧
    (engine_step cfg st mt).2.dual_engine_last_step = false := by
  simp only [engine_step] at h ⊢
  split at h
  · simp at h
  · next hs =>
    rw [if_neg hs]
    exact ⟨engine_poststate_upsilon cfg st mt, engine_poststate_beta cfg st mt,
      engine_poststate_previous_upsilon cfg st mt,
      engine_poststate_previous_beta cfg st mt,
      engine_poststate_delta_upsilon cfg st mt,
      engine_poststate_delta_beta cfg st mt, rfl⟩

theorem engine_step_failure_effects_witness :
    (engine_step slideConfig staleDeltaState 1).2.upsilon
      = staleDeltaState.upsilon ∧
    (engine_step slideConfig staleDeltaState 1).2.delta_upsilon =
      rational_delta staleDeltaState.upsilon staleDeltaState.previous_upsilon :=
  ⟨(engine_step_failure_effects slideConfig staleDeltaState 1 (by decide)).1,
   (engine_step_failure_effects slideConfig staleDeltaState 1 (by decide)).2.2.2.2.1⟩

/-! Schedule lemmas for the scheduler loop. -/

theorem run_microtick_tick (cfg : Config) (st : TRTS_State) (t m : Nat) :
    (run_microtick cfg st t m).1.tick = t := rfl

theorem run_microtick_microtick (cfg : Config) (st : TRTS_State) (t m : Nat) :
    (run_microtick cfg st t m).1.microtick = m := rfl

theorem run_microticks_schedule (cfg : Config) (t : Nat) (l : List Nat) :
    ∀ st : TRTS_State,
      ((run_microticks cfg t l st).1).map (fun s => (s.tick, s.microtick)) =
        l.map (fun m => (t, m)) := by
  induction l with
  | nil => intro st; rfl
  | cons mt rest ih =>
      intro st
      simp only [run_microticks, List.map_cons, run_microtick_tick,
        run_microtick_microtick, ih]

theorem run_ticks_schedule (cfg : Config) (n : Nat) :
    ∀ (t : Nat) (st : TRTS_State),
      ((run_ticks cfg n t st).1).map (fun s => (s.tick, s.microtick)) =
        expected_schedule n t := by
  induction n with
  | zero => intro t st; rfl
  | succ n ih =>
      intro t st
      simp only [run_ticks, expected_schedule, run_tick, List.map_append,
        run_microticks_schedule, ih]

theorem expected_schedule_length (n : Nat) : ∀ t : Nat,
    (expected_schedule n t).length = 11 * n := by
  induction n with
  | zero => intro t; rfl
  | succ n ih =>
      intro t
      simp only [expected_schedule, List.length_append, List.length_map, ih]
      simp [microtick_list]
      omega

/-- Claim C5: for every configuration with tick count n, a run emits
exactly 11·n snapshots, in tick/microtick order — tick t from 1 to n,
microticks 1 through 11 inside each tick — and returns; the theorem holds
for every configuration, including ones whose engine or psi arithmetic
fails, so failures never abort, skip, or shorten the loop. -/
theorem scheduler_totality (cfg : Config) :
    ((run_simulation cfg).map (fun s => (s.tick, s.microtick)) =
      expected_schedule cfg.ticks 1) ∧
    (run_simulation cfg).length = 11 * cfg.ticks := by
  constructor
  · exact run_ticks_schedule cfg cfg.ticks 1 (state_reset cfg)
  · have h := congrArg List.length
      (run_ticks_schedule cfg cfg.ticks 1 (state_reset cfg))
    simpa [run_simulation, expected_schedule_length] using h

/-! Gate lemmas for the inhibit psi mode. -/

theorem psi_transform_inhibit_no_fire (cfg : Config) (st : TRTS_State)
    (hmode : cfg.psi_mode = PsiMode.INHIBIT_RHO)
    (hrho : st.rho_pending = false) :
    (psi_transform cfg st).1 = false := by
  have hr : (psi_clear_flags st).rho_pending = st.rho_pending := rfl
  have e1 : (PsiMode.INHIBIT_RHO == PsiMode.RHO_ONLY) = false := rfl
  have e2 : (PsiMode.INHIBIT_RHO == PsiMode.MSTEP_RHO) = false := rfl
  have e3 : (PsiMode.INHIBIT_RHO == PsiMode.MSTEP) = false := rfl
  simp only [psi_transform]
  rw [hmode]
  simp [hr, hrho, e1, e2, e3]

theorem should_fire_inhibit_rho_clear (cfg : Config) (st : TRTS_State)
    (allow : Bool) (hmode : cfg.psi_mode = PsiMode.INHIBIT_RHO)
    (h : should_fire_psi cfg st true allow = true) :
    st.rho_pending = false := by
  unfold should_fire_psi at h
  rw [hmode] at h
  cases allow <;> cases hrho : st.rho_pending <;> simp_all

theorem m_after_pattern_rho (cfg : Config) (st : TRTS_State) :
    (m_after_pattern cfg st).rho_pending = (st.rho_pending ||
      m_pattern_hit cfg st) := by
  unfold m_after_pattern
  split <;> simp_all

theorem m_after_ratio_rho (cfg : Config) (st : TRTS_State) :
    (m_after_ratio cfg st).rho_pending = st.rho_pending := by
  unfold m_after_ratio
  split <;> rfl

theorem m_after_threshold_rho (cfg : Config) (st : TRTS_State) :
    (m_after_threshold cfg st).rho_pending = st.rho_pending := by
  unfold m_after_threshold
  split <;> rfl

theorem run_phase_M_no_fire (cfg : Config) (st : TRTS_State) (mt : Nat)
    (h1 : cfg.psi_mode = PsiMode.INHIBIT_RHO)
    (h2 : cfg.ratio_trigger_mode = RatioTriggerMode.NONE)
    (h3 : cfg.enable_ratio_threshold_psi = false) :
    (run_phase_M cfg st mt).1.psi_fired = false := by
  have hrin : ∀ s : TRTS_State, ratio_in_range cfg s = false := by
    intro s
    have e4 : (RatioTriggerMode.NONE == RatioTriggerMode.NONE) = true := rfl
    unfold ratio_in_range
    rw [h2]
    simp [e4]
  have hrth : ∀ s : TRTS_State, ratio_threshold_outside cfg s = false := by
    intro s
    unfold ratio_threshold_outside
    rw [h3]
    simp
  show (m_psi_result cfg st).1 = false
  unfold m_psi_result
  split
  · next hreq =>
    unfold m_request at hreq
    rw [hrin, hrth, Bool.or_false, Bool.or_false, Bool.and_eq_true] at hreq
    have hrho : (m_after_pattern cfg st).rho_pending = false :=
      should_fire_inhibit_rho_clear cfg _ _ h1 hreq.1
    apply psi_transform_inhibit_no_fire cfg _ h1
    rw [m_state_c, m_after_threshold_rho, m_after_ratio_rho]
    exact hrho
  · rfl

theorem run_microtick_no_fire (cfg : Config) (st : TRTS_State) (t m : Nat)
    (h1 : cfg.psi_mode = PsiMode.INHIBIT_RHO)
    (h2 : cfg.ratio_trigger_mode = RatioTriggerMode.NONE)
    (h3 : cfg.enable_ratio_threshold_psi = false) :
    (run_microtick cfg st t m).1.psi_fired = false := by
  unfold run_microtick
  cases hp : phase_of m <;> simp only [hp]
  · rfl
  · exact run_phase_M_no_fire cfg _ m h1 h2 h3
  · rfl

theorem run_microticks_no_fire (cfg : Config) (t : Nat) (l : List Nat)
    (h1 : cfg.psi_mode = PsiMode.INHIBIT_RHO)
    (h2 : cfg.ratio_trigger_mode = RatioTriggerMode.NONE)
    (h3 : cfg.enable_ratio_threshold_psi = false) :
    ∀ st : TRTS_State, ∀ s ∈ (run_microticks cfg t l st).1,
      s.psi_fired = false := by
  induction l with
  | nil => intro st s hs; simp [run_microticks] at hs
  | cons mt rest ih =>
      intro st s hs
      simp only [run_microticks, List.mem_cons] at hs
      rcases hs with hs | hs
      · rw [hs]
        exact run_microtick_no_fire cfg st t mt h1 h2 h3
      · exact ih _ s hs

theorem run_ticks_no_fire (cfg : Config) (n : Nat)
    (h1 : cfg.psi_mode = PsiMode.INHIBIT_RHO)
    (h2 : cfg.ratio_trigger_mode = RatioTriggerMode.NONE)
    (h3 : cfg.enable_ratio_threshold_psi = false) :
    ∀ (t : Nat) (st : TRTS_State), ∀ s ∈ (run_ticks cfg n t st).1,
      s.psi_fired = false := by
  induction n with
  | zero => intro t st s hs; simp [run_ticks] at hs
  | succ n ih =>
      intro t st s hs
      simp only [run_ticks, List.mem_append] at hs
      rcases hs with hs | hs
      · exact run_microticks_no_fire cfg t microtick_list h1 h2 h3 _ s hs
      · exact ih _ _ s hs

/-- Claim C10: in any run configured with psi mode INHIBIT_RHO, ratio
trigger mode NONE and the ratio-threshold feature disabled, the psi
transform never fires at any microtick of any tick — the scheduler
requests psi only while the pending-trigger latch is clear, but the
transform itself fires only when the latch is set or the mode is
fire-on-every-memory-step, so the two gates can never both pass. -/
theorem inhibit_mode_never_fires (cfg : Config)
    (h1 : cfg.psi_mode = PsiMode.INHIBIT_RHO)
    (h2 : cfg.ratio_trigger_mode = RatioTriggerMode.NONE)
    (h3 : cfg.enable_ratio_threshold_psi = false) :
    ∀ s ∈ run_simulation cfg, s.psi_fired = false := by
  intro s hs
  exact run_ticks_no_fire cfg cfg.ticks h1 h2 h3 1 (state_reset cfg) s hs

theorem inhibit_mode_never_fires_witness :
    ((run_simulation inhibitConfig).getD 1 null_snapshot).psi_fired = false :=
  inhibit_mode_never_fires inhibitConfig rfl rfl rfl
    ((run_simulation inhibitConfig).getD 1 null_snapshot) (by decide)

/-! Zero-rule preservation through the engine. -/

theorem zr_state_reset (cfg : Config)
    (hu : rational_zero_rule cfg.initial_upsilon)
    (hb : rational_zero_rule cfg.initial_beta)
    (hk : rational_zero_rule cfg.initial_koppa) :
    state_zero_rule (state_reset cfg) := by
  rw [state_zero_rule, state_reset]
  simp only [set_si_zero_one]
  exact ⟨hu, hb, hk, zr_zero_zero, zr_zero_zero, hu, hb, zr_zero_zero,
    zr_zero_zero, zr_zero_zero, zr_zero_zero, zr_zero_zero,
    by intro q hq; simp at hq, zr_zero_zero⟩

theorem zr_list_getD (l : List Rational) (i : Nat) (d : Rational)
    (hl : ∀ q ∈ l, rational_zero_rule q) (hd : rational_zero_rule d) :
    rational_zero_rule (l.getD i d) := by
  induction l generalizing i with
  | nil => simpa [List.getD] using hd
  | cons a t ih =>
      cases i with
      | zero => simpa [List.getD] using hl a (by simp)
      | succ n =>
          simp only [List.getD_cons_succ]
          exact ih n (fun q hq => hl q (by simp [hq]))

theorem zr_div_getD (a b fallback : Rational) (ha : rational_zero_rule a)
    (hfb : rational_zero_rule fallback) :
    rational_zero_rule ((rational_div a b).getD fallback) := by
  unfold rational_div
  split
  · simpa using hfb
  · next h => simpa using zr_div_raw ha h

theorem zr_apply_track_mode {mode : EngineTrackMode} {cur cp k r : Rational}
    (h : apply_track_mode mode cur cp k = some r)
    (hc : rational_zero_rule cur) (hp : rational_zero_rule cp)
    (hk : rational_zero_rule k) : rational_zero_rule r := by
  cases mode with
  | ADD =>
      simp only [apply_track_mode, Option.some.injEq] at h
      rw [← h]
      exact zr_add (zr_add hc hp) hk
  | MULTI =>
      simp only [apply_track_mode, Option.some.injEq] at h
      rw [← h]
      exact zr_mul hc (zr_add hp hk)
  | SLIDE =>
      simp only [apply_track_mode] at h
      split at h
      · exact absurd h (by simp)
      · next hg =>
        split at h
        · exact absurd h (by simp)
        · unfold rational_div at h
          split at h
          · exact absurd h (by simp)
          · next hne =>
            simp only [Option.some.injEq] at h
            rw [← h]
            exact zr_div_raw (zr_add hc hp) hne

theorem zr_engine_attempt (cfg : Config) (st1 : TRTS_State)
    (modes : EngineTrackMode × EngineTrackMode)
    (hu : rational_zero_rule st1.upsilon) (hb : rational_zero_rule st1.beta)
    (hk : rational_zero_rule st1.koppa)
    (hdu : rational_zero_rule st1.delta_upsilon)
    (hdb : rational_zero_rule st1.delta_beta) :
    rational_zero_rule (engine_attempt cfg st1 modes).2.1 ∧
    rational_zero_rule (engine_attempt cfg st1 modes).2.2 := by
  unfold engine_attempt
  split
  · exact ⟨zr_add hu hdu, zr_add hb hdb⟩
  · constructor
    · cases h1 : apply_track_mode modes.1 st1.upsilon st1.beta st1.koppa with
      | none => simpa [h1] using hu
      | some u => simpa [h1] using zr_apply_track_mode h1 hu hb hk
    · cases h2 : apply_track_mode modes.2 st1.beta st1.upsilon st1.koppa with
      | none => simpa [h2] using hb
      | some b => simpa [h2] using zr_apply_track_mode h2 hb hu hk

theorem zr_apply_sign_flip (cfg : Config) (pol : Bool) (u b : Rational)
    (hu : rational_zero_rule u) (hb : rational_zero_rule b) :
    rational_zero_rule (apply_sign_flip cfg pol u b).2.1 ∧
    rational_zero_rule (apply_sign_flip cfg pol u b).2.2 := by
  unfold apply_sign_flip
  split
  · exact ⟨hu, hb⟩
  · constructor
    · dsimp only
      split
      · exact zr_negate hu
      · exact hu
    · dsimp only
      split
      · exact zr_negate hb
      · exact hb

theorem zr_apply_delta_cross (cfg : Config) (st : TRTS_State) (u b : Rational)
    (hu : rational_zero_rule u) (hb : rational_zero_rule b)
    (hdu : rational_zero_rule st.delta_upsilon)
    (hdb : rational_zero_rule st.delta_beta)
    (hk : rational_zero_rule st.koppa) :
    rational_zero_rule (apply_delta_cross cfg st u b).1 ∧
    rational_zero_rule (apply_delta_cross cfg st u b).2 := by
  unfold apply_delta_cross
  split
  · exact ⟨hu, hb⟩
  · dsimp only
    split
    · exact ⟨zr_add (zr_add hu hdb) hk, zr_add (zr_add hb hdu) hk⟩
    · exact ⟨zr_add hu hdb, zr_add hb hdu⟩

theorem zr_update_triangle (cfg : Config) (st : TRTS_State)
    (h : state_zero_rule st) : state_zero_rule (update_triangle cfg st) := by
  unfold update_triangle
  split
  · exact h
  · obtain ⟨h1, h2, h3, h4, h5, h6, h7, h8, h9, h10, h11, h12, h13, h14⟩ := h
    refine ⟨h1, h2, h3, h4, h5, h6, h7, h8, h9, ?_, ?_, ?_, h13, h14⟩
    · show rational_zero_rule
        (if (!rational_is_zero st.epsilon) = true then
          (rational_div st.phi st.epsilon).getD st.triangle_phi_over_epsilon
        else rational_set_si 0 1)
      split
      · exact zr_div_getD _ _ _ h5 h10
      · rw [set_si_zero_one]; exact zr_zero_zero
    · show rational_zero_rule
        (if (!rational_is_zero st.phi) = true then
          (rational_div st.previous_upsilon st.phi).getD st.triangle_prev_over_phi
        else rational_set_si 0 1)
      split
      · exact zr_div_getD _ _ _ h6 h11
      · rw [set_si_zero_one]; exact zr_zero_zero
    · show rational_zero_rule
        (if (!rational_is_zero st.previous_upsilon) = true then
          (rational_div st.epsilon st.previous_upsilon).getD
            st.triangle_epsilon_over_prev
        else rational_set_si 0 1)
      split
      · exact zr_div_getD _ _ _ h4 h12
      · rw [set_si_zero_one]; exact zr_zero_zero

theorem zr_engine_commit (cfg : Config) (st : TRTS_State)
    (nu nb bu bb : Rational) (h : state_zero_rule st)
    (hnu : rational_zero_rule nu) (hnb : rational_zero_rule nb)
    (hbu : rational_zero_rule bu) (hbb : rational_zero_rule bb) :
    state_zero_rule (engine_commit cfg st nu nb bu bb) := by
  obtain ⟨h1, h2, h3, h4, h5, h6, h7, h8, h9, h10, h11, h12, h13, h14⟩ := h
  exact ⟨hnu, hnb, h3, h4, h5, hbu, hbb, zr_sub hnu hbu, zr_sub hnb hbb,
    h10, h11, h12, h13, h14⟩

theorem zr_apply_modular_wrap (cfg : Config) (st : TRTS_State)
    (hw : cfg.enable_modular_wrap = false ∨ cfg.modulus_bound = 0)
    (h : state_zero_rule st) : state_zero_rule (apply_modular_wrap cfg st) := by
  unfold apply_modular_wrap
  split
  · exact h
  · next hen =>
    rcases hw with hwf | hb0
    · simp [hwf] at hen
    · simp only [hb0]
      have hst' : state_zero_rule
          (if (cfg.koppa_wrap_threshold > 0 &&
              st.koppa.num.natAbs > cfg.koppa_wrap_threshold) = true then
            { st with koppa := rational_mod st.koppa st.beta }
          else st) := by
        split
        · obtain ⟨h1, h2, h3, h4, h5, h6, h7, h8, h9, h10, h11, h12, h13, h14⟩ := h
          exact ⟨h1, h2, zr_mod h3 h2, h4, h5, h6, h7, h8, h9, h10, h11, h12,
            h13, h14⟩
        · exact h
      simpa using hst'

theorem zr_engine_step (cfg : Config) (st : TRTS_State) (mt : Nat)
    (hw : cfg.enable_modular_wrap = false ∨ cfg.modulus_bound = 0)
    (h : state_zero_rule st) : state_zero_rule (engine_step cfg st mt).2 := by
  have hpre : state_zero_rule (engine_predeltas st) := by
    obtain ⟨h1, h2, h3, h4, h5, h6, h7, h8, h9, h10, h11, h12, h13, h14⟩ := h
    exact ⟨h1, h2, h3, h4, h5, h6, h7, zr_sub h1 h6, zr_sub h2 h7, h10, h11,
      h12, h13, h14⟩
  obtain ⟨p1, p2, p3, p4, p5, p6, p7, p8, p9, p10, p11, p12, p13, p14⟩ := hpre
  have hpre2 : state_zero_rule (engine_predeltas st) :=
    ⟨p1, p2, p3, p4, p5, p6, p7, p8, p9, p10, p11, p12, p13, p14⟩
  have hatt := zr_engine_attempt cfg (engine_predeltas st)
    (engine_track_modes cfg st mt) p1 p2 p3 p8 p9
  have hcross := zr_apply_delta_cross cfg (engine_predeltas st) _ _
    hatt.1 hatt.2 p8 p9 p3
  have hflip := zr_apply_sign_flip cfg (engine_predeltas st).sign_flip_polarity
    _ _ hcross.1 hcross.2
  have hflip' : rational_zero_rule (engine_flipped cfg st mt).2.1 ∧
      rational_zero_rule (engine_flipped cfg st mt).2.2 := hflip
  have hpost : state_zero_rule (engine_poststate cfg st mt) := by
    unfold engine_poststate
    exact zr_update_triangle cfg _ hpre2
  unfold engine_step
  split
  · exact zr_apply_modular_wrap cfg _ hw
      (zr_engine_commit cfg _ _ _ _ _ hpost hflip'.1 hflip'.2 h.1 h.2.1)
  · exact hpost

/-! Zero-rule preservation through the psi transform. -/

theorem zr_standard_psi {st st2 : TRTS_State} (h : standard_psi st = some st2)
    (hs : state_zero_rule st) : state_zero_rule st2 := by
  unfold standard_psi at h
  split at h
  · exact absurd h (by simp)
  · split at h
    · exact absurd h (by simp)
    · next hden =>
      push_neg at hden
      obtain ⟨h1, h2, h3, h4, h5, h6, h7, h8, h9, h10, h11, h12, h13, h14⟩ := hs
      simp only [Option.some.injEq] at h
      rw [← h]
      exact ⟨zr_set_components_of_den_ne hden.1,
        zr_set_components_of_den_ne hden.2, h3, h4, h5, h6, h7, h8, h9,
        h10, h11, h12, h13, h14⟩

theorem zr_triple_psi {st st2 : TRTS_State} (h : triple_psi st = some st2)
    (hs : state_zero_rule st) : state_zero_rule st2 := by
  unfold triple_psi at h
  split at h
  · exact absurd h (by simp)
  · split at h
    · exact absurd h (by simp)
    · next hden =>
      push_neg at hden
      obtain ⟨h1, h2, h3, h4, h5, h6, h7, h8, h9, h10, h11, h12, h13, h14⟩ := hs
      simp only [Option.some.injEq] at h
      rw [← h]
      exact ⟨zr_set_components_of_den_ne hden.1,
        zr_set_components_of_den_ne hden.2.1,
        zr_set_components_of_den_ne hden.2.2, h4, h5, h6, h7, h8, h9,
        h10, h11, h12, h13, h14⟩

theorem zr_psi_loop (cfg : Config) (strength : Nat) :
    ∀ (remaining : Nat) (st : TRTS_State) (fired : Bool),
      state_zero_rule st →
      state_zero_rule (psi_loop cfg strength remaining st fired).2 := by
  intro remaining
  induction remaining with
  | zero => intro st fired h; exact h
  | succ n ih =>
      intro st fired h
      simp only [psi_loop]
      split
      · exact h
      · next st2 heq =>
        have hst2 : state_zero_rule st2 := by
          split at heq
          · rcases Option.map_eq_some'.mp heq with ⟨s, hsome, hmap⟩
            have hzs := zr_triple_psi hsome h
            rw [← hmap]
            exact hzs
          · exact zr_standard_psi heq h
        exact ih _ _ hst2

theorem zr_psi_transform (cfg : Config) (st : TRTS_State)
    (h : state_zero_rule st) : state_zero_rule (psi_transform cfg st).2 := by
  have hclear : state_zero_rule (psi_clear_flags st) := h
  simp only [psi_transform]
  split
  · exact hclear
  · split
    · exact hclear
    · split
      · exact zr_psi_loop cfg _ _ _ _ hclear
      · exact zr_psi_loop cfg _ _ _ _ hclear

/-! Zero-rule preservation through the koppa accrual. -/

theorem zr_koppa_stack_push (st : TRTS_State) (v : Rational)
    (h : state_zero_rule st) (hv : rational_zero_rule v) :
    state_zero_rule (koppa_stack_push st v) := by
  obtain ⟨h1, h2, h3, h4, h5, h6, h7, h8, h9, h10, h11, h12, h13, h14⟩ := h
  unfold koppa_stack_push
  split
  · refine ⟨h1, h2, h3, h4, h5, h6, h7, h8, h9, h10, h11, h12, ?_, h14⟩
    intro q hq
    rcases List.mem_append.mp hq with hq | hq
    · exact h13 q (List.tail_subset _ hq)
    · rw [List.mem_singleton.mp hq]; exact hv
  · refine ⟨h1, h2, h3, h4, h5, h6, h7, h8, h9, h10, h11, h12, ?_, h14⟩
    intro q hq
    rcases List.mem_append.mp hq with hq | hq
    · exact h13 q hq
    · rw [List.mem_singleton.mp hq]; exact hv

theorem zr_koppa_premix (cfg : Config) (st : TRTS_State)
    (h : state_zero_rule st) : state_zero_rule (koppa_premix cfg st) := by
  unfold koppa_premix
  split
  · exact zr_koppa_stack_push st st.koppa h h.2.2.1
  · exact h

theorem zr_koppa_apply_mode (cfg : Config) (st : TRTS_State)
    (h : state_zero_rule st) : state_zero_rule (koppa_apply_mode cfg st) := by
  obtain ⟨h1, h2, h3, h4, h5, h6, h7, h8, h9, h10, h11, h12, h13, h14⟩ := h
  unfold koppa_apply_mode
  cases cfg.koppa_mode with
  | DUMP =>
      refine ⟨h1, h2, ?_, h4, h5, h6, h7, h8, h9, h10, h11, h12, h13, h14⟩
      rw [show (koppa_dump st).koppa = rational_set_si 0 1 from rfl,
        set_si_zero_one]
      exact zr_zero_zero
  | POP => exact ⟨h1, h2, h4, h4, h5, h6, h7, h8, h9, h10, h11, h12, h13, h14⟩
  | ACCUMULATE =>
      exact ⟨h1, h2, zr_add h3 h4, h4, h5, h6, h7, h8, h9, h10, h11, h12,
        h13, h14⟩

theorem zr_koppa_operate (cfg : Config) (st : TRTS_State)
    (h : state_zero_rule st) : state_zero_rule (koppa_operate cfg st) := by
  unfold koppa_operate
  have hy := zr_koppa_apply_mode cfg _ (zr_koppa_premix cfg st h)
  obtain ⟨y1, y2, y3, y4, y5, y6, y7, y8, y9, y10, y11, y12, y13, y14⟩ := hy
  exact ⟨y1, y2, zr_add y3 (zr_add y1 y2), y4, y5, y6, y7, y8, y9, y10, y11,
    y12, y13, y14⟩

theorem zr_koppa_update_sample (st : TRTS_State) (mt : Nat) (ml : Bool)
    (h : state_zero_rule st) : state_zero_rule (koppa_update_sample st mt ml) := by
  obtain ⟨h1, h2, h3, h4, h5, h6, h7, h8, h9, h10, h11, h12, h13, h14⟩ := h
  unfold koppa_update_sample
  split
  · exact ⟨h1, h2, h3, h4, h5, h6, h7, h8, h9, h10, h11, h12, h13, h3⟩
  · split
    · exact ⟨h1, h2, h3, h4, h5, h6, h7, h8, h9, h10, h11, h12, h13,
        zr_list_getD _ _ _ h13 zr_zero_zero⟩
    · exact ⟨h1, h2, h3, h4, h5, h6, h7, h8, h9, h10, h11, h12, h13, h3⟩

theorem zr_koppa_accrue (cfg : Config) (st : TRTS_State)
    (psi_fired is_memory_step : Bool) (mt : Nat)
    (h : state_zero_rule st) :
    state_zero_rule (koppa_accrue cfg st psi_fired is_memory_step mt) := by
  have hrec : state_zero_rule
      (koppa_psi_recent_update cfg st psi_fired is_memory_step) := h
  unfold koppa_accrue
  split
  · exact zr_koppa_update_sample _ _ _ hrec
  · exact zr_koppa_update_sample _ _ _ (zr_koppa_operate cfg _ hrec)

/-! Boolean-field updates do not affect the zero rule (all definitional). -/

theorem zr_with_rho_pending (st : TRTS_State) (b : Bool)
    (h : state_zero_rule st) : state_zero_rule { st with rho_pending := b } := h

theorem zr_with_rho_latched (st : TRTS_State) (b : Bool)
    (h : state_zero_rule st) : state_zero_rule { st with rho_latched := b } := h

theorem zr_with_psi_recent (st : TRTS_State) (b : Bool)
    (h : state_zero_rule st) : state_zero_rule { st with psi_recent := b } := h

theorem zr_with_ratio_triggered (st : TRTS_State) (b : Bool)
    (h : state_zero_rule st) :
    state_zero_rule { st with ratio_triggered_recent := b } := h

theorem zr_with_ratio_threshold (st : TRTS_State) (b : Bool)
    (h : state_zero_rule st) :
    state_zero_rule { st with ratio_threshold_recent := b } := h

theorem zr_with_psi_recent_rho_latched (st : TRTS_State) (b c : Bool)
    (h : state_zero_rule st) :
    state_zero_rule { st with psi_recent := b, rho_latched := c } := h

theorem zr_with_tick (st : TRTS_State) (t : Nat)
    (h : state_zero_rule st) : state_zero_rule { st with tick := t } := h

theorem zr_clear_microtick_flags (st : TRTS_State) (h : state_zero_rule st) :
    state_zero_rule (clear_microtick_flags st) := by
  obtain ⟨h1, h2, h3, h4, h5, h6, h7, h8, h9, h10, h11, h12, h13, h14⟩ := h
  exact ⟨h1, h2, h3, h4, h5, h6, h7, h8, h9, h10, h11, h12, h13, h3⟩

/-! Zero-rule preservation through the three scheduler phases. -/

theorem zr_run_phase_E (cfg : Config) (st : TRTS_State) (mt : Nat)
    (hw : cfg.enable_modular_wrap = false ∨ cfg.modulus_bound = 0)
    (h : state_zero_rule st) : state_zero_rule (run_phase_E cfg st mt).2 := by
  have heps : state_zero_rule { st with epsilon := st.upsilon } := by
    obtain ⟨h1, h2, h3, h4, h5, h6, h7, h8, h9, h10, h11, h12, h13, h14⟩ := h
    exact ⟨h1, h2, h3, h1, h5, h6, h7, h8, h9, h10, h11, h12, h13, h14⟩
  have heng : state_zero_rule (e_after_engine cfg st mt) :=
    zr_engine_step cfg _ mt hw heps
  have hpat : state_zero_rule (e_after_pattern cfg st mt) := by
    unfold e_after_pattern
    split
    · exact zr_with_rho_pending _ _ heng
    · exact heng
  show state_zero_rule (if e_forced_rho cfg mt then
    { e_after_pattern cfg st mt with rho_pending := true }
  else e_after_pattern cfg st mt)
  split
  · exact zr_with_rho_pending _ _ hpat
  · exact hpat

theorem zr_run_phase_M (cfg : Config) (st : TRTS_State) (mt : Nat)
    (h : state_zero_rule st) : state_zero_rule (run_phase_M cfg st mt).2 := by
  have hA : state_zero_rule (m_after_pattern cfg st) := by
    unfold m_after_pattern
    split
    · exact zr_with_rho_pending _ _ h
    · exact h
  have hB : state_zero_rule (m_after_ratio cfg (m_after_pattern cfg st)) := by
    unfold m_after_ratio
    split
    · exact zr_with_ratio_triggered _ _ hA
    · exact hA
  have hC : state_zero_rule (m_state_c cfg st) := by
    unfold m_state_c m_after_threshold
    split
    · exact zr_with_ratio_threshold _ _ hB
    · exact hB
  have hpr : state_zero_rule (m_psi_result cfg st).2 := by
    unfold m_psi_result
    split
    · exact zr_psi_transform cfg _ hC
    · exact zr_with_psi_recent _ _ hC
  show state_zero_rule { koppa_accrue cfg (m_psi_result cfg st).2
    (m_psi_result cfg st).1 true mt with rho_latched := false }
  exact zr_with_rho_latched _ _ (zr_koppa_accrue cfg _ _ _ mt hpr)

theorem zr_run_phase_R (cfg : Config) (st : TRTS_State) (mt : Nat)
    (h : state_zero_rule st) : state_zero_rule (run_phase_R cfg st mt).2 := by
  simp only [run_phase_R]
  apply zr_with_psi_recent_rho_latched
  exact zr_koppa_accrue cfg st false false mt h

theorem run_microtick_state (cfg : Config) (st : TRTS_State) (t m : Nat) :
    (run_microtick cfg st t m).1.state = (run_microtick cfg st t m).2 := rfl

theorem zr_run_microtick (cfg : Config) (st : TRTS_State) (t m : Nat)
    (hw : cfg.enable_modular_wrap = false ∨ cfg.modulus_bound = 0)
    (h : state_zero_rule st) : state_zero_rule (run_microtick cfg st t m).2 := by
  have hc : state_zero_rule (clear_microtick_flags st) :=
    zr_clear_microtick_flags st h
  unfold run_microtick
  cases hp : phase_of m <;> simp only [hp]
  · exact zr_run_phase_E cfg _ m hw hc
  · exact zr_run_phase_M cfg _ m hc
  · exact zr_run_phase_R cfg _ m hc

theorem zr_run_microticks (cfg : Config) (t : Nat) (l : List Nat)
    (hw : cfg.enable_modular_wrap = false ∨ cfg.modulus_bound = 0) :
    ∀ st : TRTS_State, state_zero_rule st →
      (∀ s ∈ (run_microticks cfg t l st).1, state_zero_rule s.state) ∧
      state_zero_rule (run_microticks cfg t l st).2 := by
  induction l with
  | nil =>
      intro st h
      exact ⟨by intro s hs; simp [run_microticks] at hs, h⟩
  | cons mt rest ih =>
      intro st h
      have hmt := zr_run_microtick cfg st t mt hw h
      have hrest := ih _ hmt
      constructor
      · intro s hs
        simp only [run_microticks, List.mem_cons] at hs
        rcases hs with hs | hs
        · rw [hs, run_microtick_state]
          exact hmt
        · exact hrest.1 s hs
      · exact hrest.2

theorem zr_run_ticks (cfg : Config) (n : Nat)
    (hw : cfg.enable_modular_wrap = false ∨ cfg.modulus_bound = 0) :
    ∀ (t : Nat) (st : TRTS_State), state_zero_rule st →
      (∀ s ∈ (run_ticks cfg n t st).1, state_zero_rule s.state) ∧
      state_zero_rule (run_ticks cfg n t st).2 := by
  induction n with
  | zero =>
      intro t st h
      exact ⟨by intro s hs; simp [run_ticks] at hs, h⟩
  | succ n ih =>
      intro t st h
      have htick := zr_run_microticks cfg t microtick_list hw
        { st with tick := t } (zr_with_tick st t h)
      have hrest := ih (t + 1) _ htick.2
      constructor
      · intro s hs
        simp only [run_ticks, run_tick, List.mem_append] at hs
        rcases hs with hs | hs
        · exact htick.1 s hs
        · exact hrest.1 s hs
      · exact hrest.2

/-- Claim C2 as stated is false: with modular wrap enabled and modulus
bound 5, seeds υ=1/1, β=1/1, κ=3/1 reach υ = 0/1 at the very first
microtick boundary (the engine computes υ = 5/1 and the numerator
reduction rewrites the numerator to 0 while leaving the denominator 1),
violating numerator = 0 ⇔ denominator = 0 on a reachable state. -/
theorem zero_rule_counterexample :
    ((run_simulation wrapConfig).getD 0 null_snapshot).state.upsilon = ⟨0, 1⟩ ∧
    ((run_simulation wrapConfig).getD 0 null_snapshot) ∈
      run_simulation wrapConfig ∧
    ¬ rational_zero_rule
      ((run_simulation wrapConfig).getD 0 null_snapshot).state.upsilon := by
  decide

/-- Claim C2 (amended): for every configuration in which modular wrap is
disabled (or its modulus bound is unset) and whose three seeds satisfy
the zero rule, every register of every state reachable at a microtick
boundary — υ, β, κ, ε, φ, the shadows, the deltas, the triangle ratios,
the history slots and the sample — satisfies numerator = 0 ⇔
denominator = 0; every binary rational operation funnels its raw result
through this rule before it is accepted (the `rational_set_components`
funnel), and only the modulus-bound numerator reduction bypasses it. -/
theorem zero_rule_invariant (cfg : Config)
    (hw : cfg.enable_modular_wrap = false ∨ cfg.modulus_bound = 0)
    (hu : rational_zero_rule cfg.initial_upsilon)
    (hb : rational_zero_rule cfg.initial_beta)
    (hk : rational_zero_rule cfg.initial_koppa) :
    ∀ s ∈ run_simulation cfg, state_zero_rule s.state := by
  intro s hs
  exact (zr_run_ticks cfg cfg.ticks hw 1 (state_reset cfg)
    (zr_state_reset cfg hu hb hk)).1 s hs

theorem zero_rule_invariant_witness :
    state_zero_rule ((run_simulation baseConfig).getD 0 null_snapshot).state :=
  zero_rule_invariant baseConfig (Or.inl rfl) (by decide) (by decide)
    (by decide) ((run_simulation baseConfig).getD 0 null_snapshot) (by decide)
